import Mathlib

/-!
Shallow embedding of the claude-casefile-sqlite validation-and-import
pipeline (src/validation.py, src/excel_loader.py, src/app.py).

Conventions of the embedding:
- a spreadsheet cell is a tagged union `Value` of {text, number,
  timestamp, empty}; pandas NaN / None cells are `Value.vNone`;
- timestamps are integers (seconds since the Unix epoch);
- Python float arithmetic is modelled over the rationals;
- code that can raise (for example the Python expressions
  `":" in title` on a non-string, `float(x)` on a non-numeric value,
  a failing `pd.to_datetime`, a bracket access on a missing label)
  is embedded in `Except PyErr`;
- the SQLite store is a record of committed rows plus rowid counters;
  a transaction either commits all its pending rows or leaves the
  store exactly as it was (rollback).
-/

/-- A raised Python exception, carrying only its message. -/
structure PyErr where
  msg : String
deriving DecidableEq

/-- One spreadsheet cell: text, number, timestamp or empty (NaN/None). -/
inductive Value where
  | vStr (s : String)
  | vNum (q : Rat)
  | vTime (t : Int)
  | vNone
deriving DecidableEq

/-- pd.isna: true exactly on the empty/NaN cell. -/
def pdIsna : Value → Bool
  | .vNone => true
  | _ => false

/-- Python equality of a cell against a string literal: only a text cell
can compare equal to a string; all other variants give False. -/
def valueEqStr (v : Value) (s : String) : Bool :=
  match v with
  | .vStr t => t = s
  | _ => false

/-- Python membership of a cell in a list of strings (`x in l`): string
equality against each element, hence False for every non-text cell. -/
def valueInStrList (v : Value) (l : List String) : Bool :=
  match v with
  | .vStr t => l.contains t
  | _ => false

/-- Days from civil date (proleptic Gregorian), the standard civil-days
conversion used to model timestamps as seconds since the Unix epoch. -/
def daysFromCivil (y mo d : Int) : Int :=
  let y2 := if mo ≤ 2 then y - 1 else y
  let era := (if y2 ≥ 0 then y2 else y2 - 399) / 400
  let yoe := y2 - era * 400
  let doy := (153 * (if mo > 2 then mo - 3 else mo + 9) + 2) / 5 + d - 1
  let doe := yoe * 365 + yoe / 4 - yoe / 100 + doy
  era * 146097 + doe - 719468

/-- Inverse of `daysFromCivil`: civil date of a day count. -/
def civilFromDays (z0 : Int) : Int × Int × Int :=
  let z := z0 + 719468
  let era := (if z ≥ 0 then z else z - 146096) / 146097
  let doe := z - era * 146097
  let yoe := (doe - doe / 1460 + doe / 36524 - doe / 146096) / 365
  let y := yoe + era * 400
  let doy := doe - (365 * yoe + yoe / 4 - yoe / 100)
  let mp := (5 * doy + 2) / 153
  let d := doy - (153 * mp + 2) / 5 + 1
  let mo := if mp < 10 then mp + 3 else mp - 9
  (if mo ≤ 2 then y + 1 else y, mo, d)

/-- Seconds since the Unix epoch of a civil date and time of day. -/
def epochSecs (y mo d h mi s : Int) : Int :=
  daysFromCivil y mo d * 86400 + h * 3600 + mi * 60 + s

/-- Zero-pad a nonnegative integer to two digits. -/
def pad2 (n : Int) : String :=
  if n < 10 then "0" ++ toString n else toString n

/-- strftime with format YYYY-MM-DD HH:MM:SS, the rendering applied to
timestamp values before they are handed to the SQL layer. -/
def fmtTimestamp (t : Int) : String :=
  let days := t.ediv 86400
  let secs := t.emod 86400
  let c := civilFromDays days
  let h := secs / 3600
  let mi := (secs % 3600) / 60
  let s := secs % 60
  toString c.1 ++ "-" ++ pad2 c.2.1 ++ "-" ++ pad2 c.2.2 ++ " " ++
    pad2 h ++ ":" ++ pad2 mi ++ ":" ++ pad2 s

/-- Leap year rule of the Gregorian calendar. -/
def isLeap (y : Nat) : Bool :=
  (y % 4 = 0 && y % 100 ≠ 0) || y % 400 = 0

/-- Number of days of a month, as checked by datetime construction. -/
def daysInMonth (y mo : Nat) : Nat :=
  if mo = 2 then (if isLeap y then 29 else 28)
  else if mo = 4 || mo = 6 || mo = 9 || mo = 11 then 30
  else 31

/-- All ways to read a leading run of at most `maxLen` digits off a
character list, longest first, each with its value and the rest. -/
def digitSplitsAux (acc : Nat) : Nat → List Char → List (Nat × List Char)
  | 0, _ => []
  | _ + 1, [] => []
  | n + 1, c :: cs =>
    if c.isDigit then
      let acc2 := acc * 10 + (c.toNat - 48)
      digitSplitsAux acc2 n cs ++ [(acc2, cs)]
    else []

/-- Leading digit runs of length 1..maxLen, longest first. -/
def digitSplits (maxLen : Nat) (cs : List Char) : List (Nat × List Char) :=
  digitSplitsAux 0 maxLen cs

/-- Match one literal character, then continue. -/
def litChar (c : Char) (cs : List Char) (k : List Char → Bool) : Bool :=
  match cs with
  | c2 :: rest => c2 = c && k rest
  | [] => false

/-- Match the AM/PM directive (case-insensitive) at the end of input. -/
def ampmEnd : List Char → Bool
  | [a, b] => (a = 'A' || a = 'a' || a = 'P' || a = 'p') && (b = 'M' || b = 'm')
  | _ => false

/-- Exactly four digits at the head of the input, as the year field of
the strptime directive demands. -/
def fourDigits : List Char → Option (Nat × List Char)
  | a :: b :: c :: d :: rest =>
    if a.isDigit && b.isDigit && c.isDigit && d.isDigit then
      some (((a.toNat - 48) * 10 + (b.toNat - 48)) * 100 +
        (c.toNat - 48) * 10 + (d.toNat - 48), rest)
    else none
  | _ => none

/-- datetime.strptime with format month/day/year hour:minute AM|PM
(the literal format string of validation.py line 184), as a success
test: the parsed value is discarded by the caller.  Month, day and
12-hour fields take one or two digits, the year exactly four,
backtracking like the underlying regular expression; datetime
construction additionally requires a real calendar date and year 1 or
later. -/
def strptimeMdyHMp (s : String) : Bool :=
  let cs := s.toList
  (digitSplits 2 cs).any fun p1 =>
    decide (1 ≤ p1.1) && decide (p1.1 ≤ 12) &&
    litChar '/' p1.2 fun r2 =>
      (digitSplits 2 r2).any fun p2 =>
        decide (1 ≤ p2.1) && decide (p2.1 ≤ 31) &&
        litChar '/' p2.2 fun r4 =>
          match fourDigits r4 with
          | none => false
          | some p3 =>
            litChar ' ' p3.2 fun r6 =>
              (digitSplits 2 r6).any fun p4 =>
                decide (1 ≤ p4.1) && decide (p4.1 ≤ 12) &&
                litChar ':' p4.2 fun r8 =>
                  (digitSplits 2 r8).any fun p5 =>
                    decide (p5.1 ≤ 59) &&
                    litChar ' ' p5.2 fun r10 =>
                      ampmEnd r10 && decide (1 ≤ p3.1) &&
                      decide (p2.1 ≤ daysInMonth p3.1 p1.1)

/-- Value of a run of decimal digits, none meaning not-all-digits. -/
def digitsVal : List Char → Option Nat
  | [] => some 0
  | c :: cs =>
    if c.isDigit then
      (digitsVal cs).map (fun v => (c.toNat - 48) * 10 ^ cs.length + v)
    else none

/-- Python float() on a plain decimal literal: optional sign, integer
part, optional fractional part, at least one digit overall.  Models the
library conversion on the inputs this repository feeds it. -/
def parseFloatStr (s : String) : Option Rat :=
  let cs := s.data
  let signed : Int × List Char :=
    match cs with
    | '-' :: r => (-1, r)
    | '+' :: r => (1, r)
    | _ => (1, cs)
  let ip := signed.2.takeWhile (fun c => c ≠ '.')
  let rest := signed.2.dropWhile (fun c => c ≠ '.')
  match rest with
  | [] =>
    match digitsVal ip with
    | some v => if ip.length = 0 then none else some (signed.1 * v)
    | none => none
  | _ :: frac =>
    if frac.contains '.' then none
    else
      match digitsVal ip, digitsVal frac with
      | some a, some b =>
        if ip.length + frac.length = 0 then none
        else some (signed.1 * ((a : Rat) + (b : Rat) / 10 ^ frac.length))
      | _, _ => none

/-- Two-digit field at a fixed position of an ISO datetime string. -/
def twoDigits : List Char → Option (Nat × List Char)
  | a :: b :: rest =>
    if a.isDigit && b.isDigit then
      some ((a.toNat - 48) * 10 + (b.toNat - 48), rest)
    else none
  | _ => none

/-- Modelled library behaviour: pd.to_datetime on a string, restricted
to the canonical YYYY-MM-DD HH:MM:SS form this repository itself emits;
any other string is a parse failure.  The source only relies on success
or failure of the conversion plus ordering and differences of the
results, which this model preserves. -/
def pdToDatetimeStr (s : String) : Option Int :=
  match s.toList with
  | y1 :: y2 :: y3 :: y4 :: '-' :: rest =>
    if y1.isDigit && y2.isDigit && y3.isDigit && y4.isDigit then
      let y := ((y1.toNat - 48) * 10 + (y2.toNat - 48)) * 100 +
        (y3.toNat - 48) * 10 + (y4.toNat - 48)
      match twoDigits rest with
      | some (mo, '-' :: r2) =>
        match twoDigits r2 with
        | some (d, ' ' :: r3) =>
          match twoDigits r3 with
          | some (h, ':' :: r4) =>
            match twoDigits r4 with
            | some (mi, ':' :: r5) =>
              match twoDigits r5 with
              | some (sec, []) =>
                if 1 ≤ mo && mo ≤ 12 && 1 ≤ d && d ≤ daysInMonth y mo &&
                    h ≤ 23 && mi ≤ 59 && sec ≤ 59 && 1 ≤ y then
                  some (epochSecs y mo d h mi sec)
                else none
              | _ => none
            | _ => none
          | _ => none
        | _ => none
      | _ => none
    else none
  | _ => none

/-- Python repr of a numeric cell under str(), used only inside error
payload strings. -/
def ratPyRepr (q : Rat) : String :=
  if q.den = 1 then toString q.num ++ ".0" else toString q.num ++ "/" ++ toString q.den

/-- Python str() of a cell, as used when the source interpolates a raw
cell into an error record. -/
def strOfValue : Value → String
  | .vStr s => s
  | .vNum q => ratPyRepr q
  | .vTime t => fmtTimestamp t
  | .vNone => "nan"

/-- pd.to_datetime applied to a single non-datetime cell: strings go
through the string parser, numbers are interpreted as an epoch offset,
an empty cell never reaches this point in the embedded code paths. -/
def pdToDatetime : Value → Except PyErr Int
  | .vTime t => .ok t
  | .vStr s =>
    match pdToDatetimeStr s with
    | some t => .ok t
    | none => .error ⟨"ValueError: could not parse " ++ s⟩
  | .vNum q => .ok ⌊q / 1000000000⌋
  | .vNone => .error ⟨"ValueError: NaT"⟩

/-- The coercion pattern of validation.py lines 195-203: a value already
of a datetime type passes through, anything else goes to pd.to_datetime. -/
def coerceTime (v : Value) : Except PyErr Int :=
  match v with
  | .vTime t => .ok t
  | w => pdToDatetime w

/-- Python float() on a cell: numbers pass through, strings are parsed,
timestamps raise TypeError. -/
def pyFloat : Value → Except PyErr Rat
  | .vNum q => .ok q
  | .vStr s =>
    match parseFloatStr s with
    | some q => .ok q
    | none => .error ⟨"ValueError: could not convert string to float: " ++ s⟩
  | .vTime _ => .error ⟨"TypeError: float() argument must be a string or a real number"⟩
  | .vNone => .error ⟨"TypeError: float() argument must be a string or a real number"⟩

/-- Whether a character list contains a colon: the Python membership
test colon in s on a string. -/
def hasColon (cs : List Char) : Bool :=
  cs.contains ':'

/-- Everything after the first colon of a character list. -/
def afterFirstColon : List Char → List Char
  | [] => []
  | c :: cs => if c = ':' then cs else afterFirstColon cs

/-- Python strip(): drop leading and trailing whitespace. -/
def stripWs (cs : List Char) : List Char :=
  ((cs.dropWhile Char.isWhitespace).reverse.dropWhile Char.isWhitespace).reverse

/-- Everything after the first colon of a string, stripped: the Python
idiom title.split(colon, 1)[1].strip() shared by the three
billing-category derivations. -/
def splitColonTailStrip (s : String) : String :=
  String.mk (stripWs (afterFirstColon s.data))

/-- An in-memory table: ordered column names and rows of cells, the
cell of column `c` in a row sitting at the position of `c` in `cols`. -/
structure DataFrame where
  cols : List String
  rows : List (List Value)
deriving DecidableEq

/-- Label access with a None default (Series.get, and also the pattern
x in row followed by row.get(x)): a missing label is an empty cell. -/
def getCell (cols : List String) (row : List Value) (c : String) : Value :=
  match cols.indexOf? c with
  | some i => row.getD i Value.vNone
  | none => Value.vNone

/-- Bracket label access (row[c]): raises KeyError on a missing label. -/
def itemCell (cols : List String) (row : List Value) (c : String) :
    Except PyErr Value :=
  match cols.indexOf? c with
  | some i => .ok (row.getD i Value.vNone)
  | none => .error ⟨"KeyError: " ++ c⟩

/-- Pairs every element with its index, starting from `i`. -/
def enumFrom (i : Nat) : List α → List (Nat × α)
  | [] => []
  | x :: xs => (i, x) :: enumFrom (i + 1) xs

/-! ## validation.py -/

/-- VALID_ENTRY_TYPES of validation.py. -/
def VALID_ENTRY_TYPES : List String :=
  ["email-type", "doc-type", "meeting-type", "phone-call-type",
   "case-note-type", "billing-type", "other-type"]

/-- BILLING_CATEGORIES of validation.py (general vocabulary). -/
def BILLING_CATEGORIES : List String :=
  ["Hearing Preparation", "Hearing", "Hearing Notes & Follow-up",
   "Billing & Invoicing", "Draft correspondence", "Draft email",
   "Draft documents", "Draft records", "Review correspondence",
   "Review email", "Review documents", "Review records",
   "Client Interview Preparation", "Client Interview",
   "Client Interview Notes & Follow-up", "Client Meeting Preparation",
   "Client Meeting", "Client Meeting Notes & Follow-up",
   "Client Status Update Preparation", "Client Status Update",
   "Client Status Update Notes & Follow-up",
   "Conference with Attorney Preparation", "Conference with Attorney",
   "Conference with Attorney Notes & Follow-up",
   "Settlement Agreement Drafting",
   "Settlement Agreement Review & Analysis",
   "Court Appearance Preparation", "Court Appearance",
   "Court Appearance Notes & Follow-up", "Mediation Meeting Preparation",
   "Mediation Meeting", "Mediation Meeting Notes & Follow-up",
   "Discovery Drafting", "Discovery Review", "Discovery Production",
   "Legal Research", "Settlement Preparation", "Settlement",
   "Settlement Notes & Follow-up", "Mediation Preparation", "Mediation",
   "Mediation Notes & Follow-up",
   "Meeting with Opposing Counsel Preparation",
   "Meeting with Opposing Counsel",
   "Meeting with Opposing Counsel Notes & Follow-up",
   "Phone Call Preparation", "Phone Call", "Phone Call Notes & Follow-up",
   "Prepare Report", "Review Report",
   "Team/Case Strategy Meeting Preparation", "Team/Case Strategy Meeting",
   "Team/Case Strategy Meeting Notes & Follow-up", "Trial Preparation",
   "Travel Time"]

/-- CPCS_BILLING_CATEGORIES of validation.py (restricted vocabulary). -/
def CPCS_BILLING_CATEGORIES : List String :=
  ["Client Interview", "Conference With Attorney", "Court Appearance",
   "Examine/Test Material", "Phone Calls", "Prepare Report",
   "Review Documents", "Travel Time"]

/-- required_columns of validate_case_file_data (both copies). -/
def required_columns : List String :=
  ["type", "date", "title", "from", "to", "cc", "content",
   "attachments", "synopsis", "comments"]

/-- The is_cpcs flag: hard-coded False in validation.py line 154. -/
def is_cpcs : Bool := false

/-- The category the Validator derives from the title of a billing row:
derived only when the title contains a colon (validation.py lines
150-151); a colon-free title yields no derived category and the category
check is skipped for that row. -/
def validationDerivedCategory (s : String) : Option String :=
  if hasColon s.data then some (splitColonTailStrip s) else none

/-- One recorded invalid-type violation: 1-based row number offset for
the header row, plus the str() of the offending cell. -/
structure InvalidType where
  row : Nat
  tval : String
deriving DecidableEq

/-- One recorded billing-category violation; the allowed_categories
payload is either the restricted list (CPCS branch) or the fixed string
of the general branch. -/
structure CatErr where
  row : Nat
  category : String
  allowed : List String ⊕ String
deriving DecidableEq

/-- The kind-specific payload of one date/billing error record of the
date loop: a billing_sequence record, a billing_duration record, or the
record assembled by the except clause. -/
inductive DateErrKind where
  | seq (start stop : String)
  | dur (calculated : Rat) (provided : Value)
  | exc (date : String) (error : String)
deriving DecidableEq

/-- One date/billing error record: source row number plus payload. -/
structure DateErr where
  row : Nat
  kind : DateErrKind
deriving DecidableEq

/-- The sample_errors field: the dict assembled at the end of
validation, or the initial empty-list placeholder that the
missing-columns early return leaves in place. -/
inductive SampleErrors where
  | emptyInit
  | assembled (invalid_types : List InvalidType)
      (date_format_errors : List DateErr)
      (billing_category_errors : List CatErr)
deriving DecidableEq

/-- The validation dict returned by validation.py. -/
structure Validation where
  valid : Bool
  missing_columns : List String
  invalid_types : List InvalidType
  date_format_errors : List DateErr
  billing_category_errors : List CatErr
  sample_errors : SampleErrors
deriving DecidableEq

/-- The entry-type loop of validation.py lines 133-139, from row index
`i` on: a row is recorded when its type cell is NaN or not a member of
VALID_ENTRY_TYPES. -/
def invalidTypesFrom (cols : List String) (i : Nat) :
    List (List Value) → List InvalidType
  | [] => []
  | row :: rest =>
    let t := getCell cols row "type"
    (if pdIsna t || !valueInStrList t VALID_ENTRY_TYPES then
      [{ row := i + 2, tval := if pdIsna t then "NA" else strOfValue t }]
    else []) ++ invalidTypesFrom cols (i + 1) rest

/-- The billing-category check of validation.py lines 147-167 for one
row.  A NaN title short-circuits the colon test; a non-string non-NaN
title raises TypeError out of the whole validator, since this loop has
no exception handler. -/
def catErrRow (cols : List String) (i : Nat) (row : List Value) :
    Except PyErr (List CatErr) :=
  if valueEqStr (getCell cols row "type") "billing-type" then
    match getCell cols row "title" with
    | .vNone => .ok []
    | .vStr s =>
      match validationDerivedCategory s with
      | none => .ok []
      | some category =>
        if is_cpcs && !CPCS_BILLING_CATEGORIES.contains category then
          .ok [{ row := i + 2, category, allowed := .inl CPCS_BILLING_CATEGORIES }]
        else if !is_cpcs && !BILLING_CATEGORIES.contains category then
          .ok [{ row := i + 2, category, allowed := .inr "General billing categories" }]
        else .ok []
    | _ => .error ⟨"TypeError: argument of type is not iterable"⟩
  else .ok []

/-- The billing-category loop over all rows from index `i` on. -/
def catErrorsFrom (cols : List String) (i : Nat) :
    List (List Value) → Except PyErr (List CatErr)
  | [] => .ok []
  | row :: rest => do
    let e ← catErrRow cols i row
    let es ← catErrorsFrom cols (i + 1) rest
    .ok (e ++ es)

/-- The date-format step of validation.py lines 182-184: a cell already
of a datetime type passes, anything else must satisfy strptime on its
str() rendering. -/
def dateFmtOk (date : Value) : Bool :=
  match date with
  | .vTime _ => true
  | v => strptimeMdyHMp (strOfValue v)

/-- The body of the date loop of validation.py lines 175-232 for one
row, without the row number.  A NaN date skips the row entirely,
including every billing check.  Errors appended before an exception is
raised survive into the final list, and the except clause appends its
own record carrying the str() of the date cell and the message. -/
def rowDateChecks (cols : List String) (row : List Value) : List DateErrKind :=
  let date := getCell cols row "date"
  if pdIsna date then []
  else if !dateFmtOk date then
    [.exc (strOfValue date) ("ValueError: time data " ++ strOfValue date ++
      " does not match format")]
  else if valueEqStr (getCell cols row "type") "billing-type" then
    let bs := getCell cols row "billing-start"
    let bst := getCell cols row "billing-stop"
    if !pdIsna bs && !pdIsna bst then
      match coerceTime bs with
      | .error e => [.exc (strOfValue date) e.msg]
      | .ok s =>
        match coerceTime bst with
        | .error e => [.exc (strOfValue date) e.msg]
        | .ok t =>
          let seqErrs : List DateErrKind :=
            if s ≥ t then [.seq (strOfValue bs) (strOfValue bst)] else []
          let bh := getCell cols row "billing-hrs"
          if pdIsna bh then seqErrs
          else
            match pyFloat bh with
            | .error e => seqErrs ++ [.exc (strOfValue date) e.msg]
            | .ok h =>
              let duration : Rat := ((t - s : Int) : Rat) / 3600
              seqErrs ++
                (if |duration - h| > 1 / 100 then [.dur duration bh] else [])
    else []
  else []

/-- The date loop of validation.py for one row, with the row number
attached the way the source records it (index + 2). -/
def processRowDates (cols : List String) (idx : Nat) (row : List Value) :
    List DateErr :=
  (rowDateChecks cols row).map (fun k => { row := idx + 2, kind := k })

/-- The date loop over all rows from index `i` on. -/
def dateErrorsFrom (cols : List String) (i : Nat) :
    List (List Value) → List DateErr
  | [] => []
  | row :: rest => processRowDates cols i row ++ dateErrorsFrom cols (i + 1) rest

/-- validate_case_file_data of src/validation.py.  Raises (returns
error) only out of the billing-category loop, the one unguarded spot;
a missing required column returns the early report with every other
list still at its initial empty value. -/
def validate_case_file_data (df : DataFrame) : Except PyErr Validation :=
  let missing := required_columns.filter (fun c => !df.cols.contains c)
  if missing.isEmpty then
    let its := invalidTypesFrom df.cols 0 df.rows
    match catErrorsFrom df.cols 0 df.rows with
    | .error e => .error e
    | .ok cats =>
      let dates := dateErrorsFrom df.cols 0 df.rows
      .ok { valid := its.isEmpty && cats.isEmpty && dates.isEmpty,
            missing_columns := [],
            invalid_types := its,
            date_format_errors := dates,
            billing_category_errors := cats,
            sample_errors := .assembled (its.take 5) (dates.take 5) (cats.take 5) }
  else
    .ok { valid := false, missing_columns := missing, invalid_types := [],
          date_format_errors := [], billing_category_errors := [],
          sample_errors := .emptyInit }

/-! ## The duplicate validator of app.py (lines 246-288) -/

/-- One entry of the invalid_entries list of the app.py validator:
1-based row number (no header offset) and the interpolated message. -/
structure AppInvalidEntry where
  row : Nat
  issue : String
deriving DecidableEq

/-- The validation dict returned by the app.py copy of the validator. -/
structure AppValidation where
  valid : Bool
  missing_columns : List String
  invalid_entries : List AppInvalidEntry
deriving DecidableEq

/-- The entry-type loop of app.py lines 279-286: same predicate as
validation.py, but the recorded row number is the index plus 1. -/
def appInvalidEntriesFrom (cols : List String) (i : Nat) :
    List (List Value) → List AppInvalidEntry
  | [] => []
  | row :: rest =>
    let t := getCell cols row "type"
    (if pdIsna t || !valueInStrList t VALID_ENTRY_TYPES then
      [{ row := i + 1,
         issue := "Invalid entry type: " ++ strOfValue t }]
    else []) ++ appInvalidEntriesFrom cols (i + 1) rest

/-- validate_case_file_data of src/app.py: required columns, then the
type-enum loop; no category or date checks. -/
def app_validate_case_file_data (df : DataFrame) : AppValidation :=
  let missing := required_columns.filter (fun c => !df.cols.contains c)
  if missing.isEmpty then
    let inv := appInvalidEntriesFrom df.cols 0 df.rows
    { valid := inv.isEmpty, missing_columns := [], invalid_entries := inv }
  else
    { valid := false, missing_columns := missing, invalid_entries := [] }

/-! ## The store -/

/-- The live column list of the case_file_entries table, as enumerated
by the expected schema of app.py lines 112-116 and read back at runtime
through PRAGMA table_info by both import paths. -/
def case_file_entries_columns : List String :=
  ["entry_id", "case_id", "type", "date", "title", "from_party",
   "to_party", "cc_party", "content", "attachments", "synopsis",
   "comments", "billing_start", "billing_stop", "billing_hrs"]

/-- One committed row of case_file_entries: the generated rowid plus
the inserted cells, keyed by the projected column list. -/
structure Entry where
  entry_id : Int
  cells : List (String × Value)
deriving DecidableEq

/-- One committed row of billing_entries. -/
structure BillingEntry where
  billing_id : Int
  case_id : Int
  entry_id : Int
  billing_category : String
  billing_start : Value
  billing_stop : Value
  billing_hours : Value
  billing_description : Value
deriving DecidableEq

/-- The SQLite store: committed rows of the two tables the import
engine touches, plus the next rowid of each.  A transaction appends to
these lists atomically on commit; a rollback leaves the record
untouched. -/
structure DB where
  entries : List Entry
  billing : List BillingEntry
  next_id : Int
  next_billing_id : Int
deriving DecidableEq

/-- A store with no rows, rowids starting at 1 as in SQLite. -/
def emptyDB : DB :=
  { entries := [], billing := [], next_id := 1, next_billing_id := 1 }

/-! ## Row Mapper and Import Engine of app.py -/

/-- column_mapping of prepare_data_for_db (app.py lines 309-316). -/
def column_mapping : List (String × String) :=
  [("from", "from_party"), ("to", "to_party"), ("cc", "cc_party"),
   ("billing-start", "billing_start"), ("billing-stop", "billing_stop"),
   ("billing-hrs", "billing_hrs")]

/-- Rename one source column name to its storage name. -/
def renameCol (c : String) : String :=
  match column_mapping.find? (fun p => p.1 = c) with
  | some p => p.2
  | none => c

/-- pd.to_datetime with errors=coerce on one cell: unparseable values
become empty (NaT) instead of raising. -/
def toDatetimeCoerce (v : Value) : Value :=
  match coerceTime v with
  | .ok t => .vTime t
  | .error _ => .vNone

/-- The three storage-side date column names coerced by the mapper. -/
def mapperDateCols : List String := ["date", "billing_start", "billing_stop"]

/-- prepare_data_for_db of app.py: attach case_id to every row, rename
source columns to storage names, best-effort coerce the date columns to
timestamps (absent or unparseable cells become empty). -/
def prepare_data_for_db (df : DataFrame) (case_id : Int) : DataFrame :=
  let cols := df.cols.map renameCol ++ ["case_id"]
  let rows := df.rows.map (fun r =>
    (enumFrom 0 (r ++ [Value.vNum (case_id : Rat)])).map (fun p =>
      if mapperDateCols.contains (cols.getD p.1 "") then
        toDatetimeCoerce p.2
      else p.2))
  { cols, rows }

/-- The parameter conversion of app.py lines 362-365: a timestamp cell
is rendered as a YYYY-MM-DD HH:MM:SS string before insertion. -/
def sqlParamOfValue : Value → Value
  | .vTime t => .vStr (fmtTimestamp t)
  | v => v

/-- The billing-category derivation of the app.py import engine
(create_billing_entry lines 398-402): tail after the first colon,
stripped, or the whole title when no colon occurs. -/
def appDerivedCategory (s : String) : String :=
  if hasColon s.data then splitColonTailStrip s else s

/-- Binding one parameter of a cursor.execute call: sqlite3 accepts
None, numbers, strings and bytes, but a raw timestamp object (a
pd.Timestamp, a datetime subclass with no registered adapter) raises
InterfaceError at bind time. -/
def bindParam (v : Value) : Except PyErr Value :=
  match v with
  | .vTime _ =>
    .error ⟨"InterfaceError: Error binding parameter: type Timestamp is not supported"⟩
  | w => .ok w

/-- create_billing_entry of app.py: derives the category from the
title (raising TypeError when the title cell is not a string, since the
colon membership test runs on the raw cell), formats timestamp start
and stop values, copies the hours verbatim and the content as the
description, then binds the values into the INSERT (a raw timestamp
surviving to a bound parameter, possible for the hours and description
cells, raises InterfaceError).  Bracket accesses on the projected row
can raise KeyError when the source table lacked the corresponding
column. -/
def create_billing_entry (cols : List String) (case_id : Int)
    (entry_id billing_id : Int) (row : List Value) :
    Except PyErr BillingEntry := do
  let title ← itemCell cols row "title"
  match title with
  | .vStr s =>
    let billing_category := appDerivedCategory s
    let bstart ← itemCell cols row "billing_start"
    let bstop ← itemCell cols row "billing_stop"
    let bhrs ← itemCell cols row "billing_hrs"
    let content ← itemCell cols row "content"
    let b1 ← bindParam (sqlParamOfValue bstart)
    let b2 ← bindParam (sqlParamOfValue bstop)
    let b3 ← bindParam bhrs
    let b4 ← bindParam content
    .ok { billing_id, case_id, entry_id, billing_category,
          billing_start := b1, billing_stop := b2,
          billing_hours := b3, billing_description := b4 }
  | _ => .error ⟨"TypeError: argument of type is not iterable"⟩

/-- Does this projected row carry the billing type tag?  Mirrors the
bracket access row[type] of app.py line 377 followed by the string
comparison; a KeyError surfaces separately inside the insert loop. -/
def rowTypeIsBilling (cols : List String) (row : List Value) : Bool :=
  match itemCell cols row "type" with
  | .ok v => valueEqStr v "billing-type"
  | .error _ => false

/-- The insert loop of insert_data_to_db (app.py lines 355-378) over
the projected rows, threading the two rowid counters: every row becomes
a pending entry, every billing-type row additionally a pending billing
row linked to the entry rowid just generated; the first exception
aborts the whole loop. -/
def insertRows (cols : List String) (case_id : Int) :
    List (List Value) → Int → Int →
    Except PyErr (List Entry × List BillingEntry)
  | [], _, _ => .ok ([], [])
  | row :: rest, eid, bid => do
    let entry : Entry :=
      { entry_id := eid, cells := cols.zip (row.map sqlParamOfValue) }
    let tv ← itemCell cols row "type"
    if valueEqStr tv "billing-type" then do
      let be ← create_billing_entry cols case_id eid bid row
      let p ← insertRows cols case_id rest (eid + 1) (bid + 1)
      .ok (entry :: p.1, be :: p.2)
    else do
      let p ← insertRows cols case_id rest (eid + 1) bid
      .ok (entry :: p.1, p.2)

/-- insert_data_to_db of app.py: project the mapped rows down to the
live column set of case_file_entries, insert them in order in a single
transaction, derive billing rows for billing-type entries, commit only
when every insert succeeded; any exception rolls the store back to its
initial state and propagates. -/
def insert_data_to_db (db0 : DB) (df : DataFrame) (case_id : Int) :
    DB × Except PyErr Nat :=
  let df_columns := df.cols.filter (fun c => case_file_entries_columns.contains c)
  let filtered := df.rows.map (fun r => df_columns.map (getCell df.cols r))
  match insertRows df_columns case_id filtered db0.next_id db0.next_billing_id with
  | .ok p =>
    ({ entries := db0.entries ++ p.1, billing := db0.billing ++ p.2,
       next_id := db0.next_id + p.1.length,
       next_billing_id := db0.next_billing_id + p.2.length },
     .ok p.1.length)
  | .error e => (db0, .error e)

/-- The errors field of the result dict of load_excel_to_db in app.py:
empty, the whole validation dict, or exception messages. -/
inductive AppErrors where
  | noErrors
  | validationReport (v : AppValidation)
  | messages (l : List String)
deriving DecidableEq

/-- The result dict of load_excel_to_db in app.py. -/
structure AppImportResults where
  success : Bool
  message : String
  entries_added : Nat
  errors : AppErrors
deriving DecidableEq

/-- load_excel_to_db of app.py from the point where the table has been
read: gate on the local validator, map, insert; an exception out of the
insert transaction leaves entries_added at its initial 0 and reports
failure with the propagated message. -/
def app_load_excel_to_db_df (db0 : DB) (df : DataFrame) (case_id : Int) :
    DB × AppImportResults :=
  let validation := app_validate_case_file_data df
  if !validation.valid then
    (db0, { success := false, message := "Data validation failed",
            entries_added := 0, errors := .validationReport validation })
  else
    let prepared := prepare_data_for_db df case_id
    match insert_data_to_db db0 prepared case_id with
    | (db1, .ok n) =>
      (db1, { success := true,
              message := "Successfully imported " ++ toString n ++ " entries",
              entries_added := n, errors := .noErrors })
    | (db1, .error e) =>
      (db1, { success := false,
              message := "Error importing data: " ++ e.msg,
              entries_added := 0, errors := .messages [e.msg] })

/-! ## File-type dispatch (excel_loader.py lines 20-56, app.py 209-219) -/

/-- os.path.splitext restricted to the extension part: the suffix of
the final path component from its last dot on, empty when the component
has no dot or only leading dots. -/
def splitextExt (p : String) : String :=
  let cs := (p.data.reverse.takeWhile (fun c => c ≠ '/')).reverse
  match ((enumFrom 0 cs).filter (fun q => q.2 = '.')).getLast? with
  | none => ""
  | some q =>
    if (cs.take q.1).all (fun c => c = '.') then ""
    else String.mk (cs.drop q.1)

/-- The file kinds distinguished by identify_file_type. -/
inductive FileType where
  | excel
  | csv
  | unknown
deriving DecidableEq

/-- Python str.lower(), character by character. -/
def strLower (p : String) : String :=
  String.mk (p.data.map Char.toLower)

/-- identify_file_type of excel_loader.py: extension of the lowercased
path, xlsx/xls/xlsm are spreadsheets, csv is the delimited text kind,
anything else is unknown. -/
def identify_file_type (p : String) : FileType :=
  let ext := splitextExt (strLower p)
  if [".xlsx", ".xls", ".xlsm"].contains ext then .excel
  else if ext = ".csv" then .csv
  else .unknown

/-- The reader a supported path is routed to. -/
inductive ReaderKind where
  | excelReader
  | csvTabReader
deriving DecidableEq

/-- load_data_to_dataframe of excel_loader.py, as the routing decision:
spreadsheet paths go to the spreadsheet reader, csv paths to the
tab-delimited text reader, anything else raises ValueError before any
file contents are read. -/
def load_data_to_dataframe_route (p : String) : Except PyErr ReaderKind :=
  match identify_file_type p with
  | .excel => .ok .excelReader
  | .csv => .ok .csvTabReader
  | .unknown => .error ⟨"Unsupported file type: " ++ p⟩

/-- load_excel_to_db of app.py including its extension dispatch (lines
209-219).  The readers are passed as the tables they would produce, so
that the embedded function provably ignores them and the store on the
unsupported-extension path: the source returns before opening any
database connection or reading any file contents. -/
def app_load_excel_to_db (db0 : DB) (path : String)
    (excelContents csvContents : DataFrame) (case_id : Int) :
    DB × AppImportResults :=
  let ext := splitextExt (strLower path)
  if [".xlsx", ".xls", ".xlsm"].contains ext then
    app_load_excel_to_db_df db0 excelContents case_id
  else if ext = ".csv" then
    app_load_excel_to_db_df db0 csvContents case_id
  else
    (db0, { success := false, message := "Unsupported file type: " ++ ext,
            entries_added := 0, errors := .noErrors })

/-! ## Import Engine of excel_loader.py -/

/-- Modelled from the spec: prepare_data_for_import lives in
data_processing.py, which is not among the sources; section 4.3 (Row
Mapper) specifies its operations as attaching case_id to every row,
renaming the source column names to the storage names, and best-effort
coercing the date, billing_start and billing_stop columns to
timestamps, with absent or unparseable values becoming null. -/
def prepare_data_for_import (df : DataFrame) (case_id : Int) : DataFrame :=
  let cols := df.cols.map renameCol ++ ["case_id"]
  let rows := df.rows.map (fun r =>
    (enumFrom 0 (r ++ [Value.vNum (case_id : Rat)])).map (fun p =>
      if mapperDateCols.contains (cols.getD p.1 "") then
        toDatetimeCoerce p.2
      else p.2))
  { cols, rows }

/-- The billing-category derivation of the excel_loader.py import
engine (lines 108-113): tail after the first colon, stripped, or the
whole title when no colon occurs.  Implemented in the source
independently of the app.py copy. -/
def excelDerivedCategory (s : String) : String :=
  if hasColon s.data then splitColonTailStrip s else s

/-- The result dict of load_case_file_to_db. -/
structure LoadResults where
  success : Bool
  entries_added : Nat
  billing_entries_added : Nat
  errors : List String
deriving DecidableEq

/-- The billing loop of load_case_file_to_db (excel_loader.py lines
103-137) over the billing-type rows of the original table, each paired
with its original positional index.  The colon membership test on the
raw title cell raises TypeError for a non-string title; billing start,
stop and hours are fetched with a None default and bound RAW into the
INSERT, so a timestamp cell among them (or a timestamp content cell)
raises InterfaceError at bind time — this path performs no strftime
conversion. -/
def excelBillingLoop (cols : List String) (case_id : Int) (first_id : Int) :
    List (Nat × List Value) → Int → Except PyErr (List BillingEntry)
  | [], _ => .ok []
  | (orig_idx, row) :: rest, bid => do
    let entry_id := first_id + (orig_idx : Int)
    let title ← itemCell cols row "title"
    match title with
    | .vStr s =>
      let billing_category := excelDerivedCategory s
      let bstart := getCell cols row "billing-start"
      let bstop := getCell cols row "billing-stop"
      let bhrs := getCell cols row "billing-hrs"
      let content ← itemCell cols row "content"
      let b1 ← bindParam bstart
      let b2 ← bindParam bstop
      let b3 ← bindParam bhrs
      let b4 ← bindParam content
      let be : BillingEntry :=
        { billing_id := bid, case_id, entry_id, billing_category,
          billing_start := b1, billing_stop := b2,
          billing_hours := b3, billing_description := b4 }
      let bes ← excelBillingLoop cols case_id first_id rest (bid + 1)
      .ok (be :: bes)
    | _ => .error ⟨"TypeError: argument of type is not iterable"⟩

/-- load_case_file_to_db of excel_loader.py: map the rows, project them
to the live column set, bulk-insert them through to_sql, recover the
generated rowid range from last_insert_rowid, then derive one billing
row per billing-type row of the original table, linked by first_id plus
the original row position.  to_sql on a raw sqlite3 connection COMMITS
the entry rows itself (the pandas SQLite fallback wraps the inserts in
its own transaction and calls commit on the connection), so when the
billing loop then raises, the rollback at line 143 undoes only the
pending billing inserts: the batch entry rows remain visible, the
error message is recorded, success stays false, and entries_added,
already set to the batch size before the billing loop ran, is returned
as set. -/
def load_case_file_to_db (db0 : DB) (df : DataFrame) (case_id : Int) :
    DB × LoadResults :=
  let prepared := prepare_data_for_import df case_id
  let columns_to_use :=
    prepared.cols.filter (fun c => case_file_entries_columns.contains c)
  let filtered := prepared.rows.map (fun r => columns_to_use.map (getCell prepared.cols r))
  let n := filtered.length
  let newEntries := (enumFrom 0 filtered).map (fun p =>
    ({ entry_id := db0.next_id + (p.1 : Int),
       cells := columns_to_use.zip p.2 } : Entry))
  let last_id := db0.next_id + (n : Int) - 1
  let first_id := last_id - (n : Int) + 1
  let billing_rows := (enumFrom 0 df.rows).filter (fun p =>
    valueEqStr (getCell df.cols p.2 "type") "billing-type")
  match excelBillingLoop df.cols case_id first_id billing_rows db0.next_billing_id with
  | .ok bes =>
    ({ entries := db0.entries ++ newEntries, billing := db0.billing ++ bes,
       next_id := db0.next_id + (n : Int),
       next_billing_id := db0.next_billing_id + (bes.length : Int) },
     { success := true, entries_added := n,
       billing_entries_added := bes.length, errors := [] })
  | .error e =>
    ({ entries := db0.entries ++ newEntries, billing := db0.billing,
       next_id := db0.next_id + (n : Int),
       next_billing_id := db0.next_billing_id },
     { success := false, entries_added := n,
       billing_entries_added := 0, errors := [e.msg] })

/-! ## Specification-side helpers for the theorems -/

/-- The consecutive rowids a batch of n inserts generates, starting at
`start`. -/
def seqIds (start : Int) : Nat → List Int
  | 0 => []
  | n + 1 => start :: seqIds (start + 1) n

/-- The parent entry rowids of the billing rows of a batch, walking the
rows in insertion order from entry rowid `eid`: billing-type rows
contribute the rowid of the entry generated for them, other rows
contribute nothing. -/
def expectedBillingIds (cols : List String) : List (List Value) → Int → List Int
  | [], _ => []
  | row :: rest, eid =>
    (if rowTypeIsBilling cols row then [eid] else []) ++
      expectedBillingIds cols rest (eid + 1)

/-- The report of a non-raising validation run (plumbing for closed
witness statements; the error fallback is never hit there). -/
def validationOf (df : DataFrame) : Validation :=
  match validate_case_file_data df with
  | .ok v => v
  | .error _ =>
    { valid := false, missing_columns := [], invalid_types := [],
      date_format_errors := [], billing_category_errors := [],
      sample_errors := .emptyInit }

/-! ## Concrete tables used by witnesses and counterexamples -/

/-- Required columns followed by the three optional billing columns. -/
def reqBillingCols : List String :=
  required_columns ++ ["billing-start", "billing-stop", "billing-hrs"]

/-- A billing-type row whose title cell is empty (NaN): valid to the
validator, lethal to both import engines. -/
def nanTitleRow : List Value :=
  [.vStr "billing-type", .vTime 1700000000, .vNone, .vNone, .vNone,
   .vNone, .vStr "worked on the case", .vNone, .vNone, .vNone]

/-- One-row table around `nanTitleRow`. -/
def dfNanTitle : DataFrame :=
  { cols := required_columns, rows := [nanTitleRow] }

/-- A billing row with start 100 at or after stop 50 but an empty date
cell, so the date loop skips it. -/
def seqSkipRow : List Value :=
  [.vStr "billing-type", .vNone, .vNone, .vNone, .vNone, .vNone,
   .vStr "c", .vNone, .vNone, .vNone, .vTime 100, .vTime 50, .vNone]

/-- One-row table around `seqSkipRow`. -/
def dfSeqSkip : DataFrame :=
  { cols := reqBillingCols, rows := [seqSkipRow] }

/-- A billing row whose hours (0.5) disagree with its one-hour span but
whose empty date cell makes the date loop skip it. -/
def durSkipRow : List Value :=
  [.vStr "billing-type", .vNone, .vNone, .vNone, .vNone, .vNone,
   .vStr "c", .vNone, .vNone, .vNone, .vTime 0, .vTime 3600,
   .vNum (1 / 2)]

/-- One-row table around `durSkipRow`. -/
def dfDurSkip : DataFrame :=
  { cols := reqBillingCols, rows := [durSkipRow] }

/-- A billing row with a present date and start 6000 after stop 3000:
the sequence check does fire here. -/
def seqFlagRow : List Value :=
  [.vStr "billing-type", .vTime 0, .vNone, .vNone, .vNone, .vNone,
   .vStr "c", .vNone, .vNone, .vNone, .vTime 6000, .vTime 3000, .vNone]

/-- One-row table around `seqFlagRow`. -/
def dfSeqFlag : DataFrame :=
  { cols := reqBillingCols, rows := [seqFlagRow] }

/-- A billing row with a present date, a one-hour span and hours 0.5:
the duration check does fire here. -/
def durFlagRow : List Value :=
  [.vStr "billing-type", .vTime 0, .vNone, .vNone, .vNone, .vNone,
   .vStr "c", .vNone, .vNone, .vNone, .vTime 0, .vTime 3600,
   .vNum (1 / 2)]

/-- One-row table around `durFlagRow`. -/
def dfDurFlag : DataFrame :=
  { cols := reqBillingCols, rows := [durFlagRow] }

/-- An unremarkable valid one-row table. -/
def dfValidSmall : DataFrame :=
  { cols := required_columns,
    rows := [[.vStr "email-type", .vTime 0, .vStr "hello", .vNone,
              .vNone, .vNone, .vStr "body", .vNone, .vNone, .vNone]] }

/-- A table missing most required columns. -/
def dfMissingCols : DataFrame :=
  { cols := ["type", "title"], rows := [] }

/-- A one-row table whose type cell carries an unknown tag. -/
def dfBadType : DataFrame :=
  { cols := required_columns,
    rows := [[.vStr "bogus", .vNone, .vNone, .vNone, .vNone, .vNone,
              .vNone, .vNone, .vNone, .vNone]] }

/-- A billing row whose title Travel has no colon and is not a member
of the billing vocabulary: the validator skips its category check. -/
def dfNoColonTitle : DataFrame :=
  { cols := required_columns,
    rows := [[.vStr "billing-type", .vTime 0, .vStr "Travel", .vNone,
              .vNone, .vNone, .vStr "c", .vNone, .vNone, .vNone]] }

/-- A billing row with a colon title in the general vocabulary and
consistent times carried as text cells (the form a loaded file
delivers, and the only form the raw billing INSERT of the excel path
can bind), followed by a plain email row: a table whose import
succeeds end to end. -/
def dfBillingOk : DataFrame :=
  { cols := reqBillingCols,
    rows := [[.vStr "billing-type", .vTime 1000, .vStr "Work: Hearing",
              .vNone, .vNone, .vNone, .vStr "desc", .vNone, .vNone,
              .vNone, .vStr "2024-01-01 09:00:00",
              .vStr "2024-01-01 10:00:00", .vNum 1],
             [.vStr "email-type", .vTime 2000, .vStr "hi", .vNone,
              .vNone, .vNone, .vStr "body", .vNone, .vNone, .vNone,
              .vNone, .vNone, .vNone]] }

/-- Projected column list used by the insert-loop witness. -/
def colsW : List String :=
  ["type", "title", "billing_start", "billing_stop", "billing_hrs",
   "content"]

/-- Rows used by the insert-loop witness: one billing row, one email
row. -/
def rowsW : List (List Value) :=
  [[.vStr "billing-type", .vStr "a: b", .vNone, .vNone, .vNum 1,
    .vStr "c"],
   [.vStr "email-type", .vNone, .vNone, .vNone, .vNone, .vNone]]

/-- The result of the insert loop on the witness rows. -/
def insResW : List Entry × List BillingEntry :=
  (insertRows colsW 7 rowsW 1 1).toOption.getD ([], [])

/-! ## Supporting lemmas -/

theorem enumFrom_length (l : List α) : ∀ i, (enumFrom i l).length = l.length := by
  induction l with
  | nil => intro i; rfl
  | cons x xs ih =>
    intro i
    simp [enumFrom, ih (i + 1)]

theorem pdIsna_false_of_inList (v : Value) (l : List String)
    (h : valueInStrList v l = true) : pdIsna v = false := by
  cases v <;> simp_all [valueInStrList, pdIsna]

theorem isEmpty_false_of_mem {l : List α} {a : α} (h : a ∈ l) :
    l.isEmpty = false := by
  cases hE : l.isEmpty with
  | false => rfl
  | true => exact absurd (List.isEmpty_iff.mp hE) (List.ne_nil_of_mem h)

theorem enumFrom_map_add (c : Int) (l : List α) :
    ∀ i, (enumFrom i l).map (fun p => c + (p.1 : Int)) =
      seqIds (c + (i : Int)) l.length := by
  induction l with
  | nil => intro i; rfl
  | cons x xs ih =>
    intro i
    simp only [enumFrom, List.map_cons, List.length_cons, seqIds, ih (i + 1)]
    have h2 : c + ((i + 1 : Nat) : Int) = c + (i : Int) + 1 := by
      push_cast
      omega
    rw [h2]

theorem enumFrom_filter_snd_length (q : α → Bool) (l : List α) :
    ∀ i, ((enumFrom i l).filter (fun p => q p.2)).length =
      (l.filter q).length := by
  induction l with
  | nil => intro i; rfl
  | cons x xs ih =>
    intro i
    simp only [enumFrom, List.filter_cons]
    by_cases h : q x = true
    · simp [h, ih (i + 1)]
    · simp [h, ih (i + 1)]

theorem mem_processRowDates_iff (cols : List String) (idx : Nat)
    (row : List Value) (e : DateErr) :
    e ∈ processRowDates cols idx row ↔
      e.row = idx + 2 ∧ e.kind ∈ rowDateChecks cols row := by
  simp only [processRowDates, List.mem_map]
  constructor
  · rintro ⟨k, hk, rfl⟩
    exact ⟨rfl, hk⟩
  · rintro ⟨h1, h2⟩
    refine ⟨e.kind, h2, ?_⟩
    cases e
    simp_all

theorem mem_dateErrorsFrom_of (cols : List String) (rows : List (List Value))
    (row : List Value) (e : DateErr) :
    ∀ i j, rows.get? j = some row →
      e ∈ processRowDates cols (i + j) row →
      e ∈ dateErrorsFrom cols i rows := by
  induction rows with
  | nil => intro i j h; simp at h
  | cons r rs ih =>
    intro i j hrow he
    cases j with
    | zero =>
      obtain rfl : r = row := by simpa using hrow
      simp only [dateErrorsFrom, List.mem_append]
      exact Or.inl (by simpa using he)
    | succ j2 =>
      simp only [dateErrorsFrom, List.mem_append]
      refine Or.inr (ih (i + 1) j2 (by simpa using hrow) ?_)
      have : i + 1 + j2 = i + (j2 + 1) := by omega
      rw [this]
      exact he

theorem exists_of_mem_dateErrorsFrom (cols : List String)
    (rows : List (List Value)) (e : DateErr) :
    ∀ i, e ∈ dateErrorsFrom cols i rows →
      ∃ j row, rows.get? j = some row ∧ e ∈ processRowDates cols (i + j) row := by
  induction rows with
  | nil => intro i h; simp [dateErrorsFrom] at h
  | cons r rs ih =>
    intro i he
    rcases List.mem_append.mp (by simpa [dateErrorsFrom] using he) with h | h
    · exact ⟨0, r, rfl, by simpa using h⟩
    · obtain ⟨j, row, hrow, hmem⟩ := ih (i + 1) h
      refine ⟨j + 1, row, by simpa using hrow, ?_⟩
      have : i + (j + 1) = i + 1 + j := by omega
      rw [this]
      exact hmem

theorem mem_invalidTypesFrom_of (cols : List String) (rows : List (List Value))
    (row : List Value) :
    ∀ i j, rows.get? j = some row →
      (pdIsna (getCell cols row "type") ||
        !valueInStrList (getCell cols row "type") VALID_ENTRY_TYPES) = true →
      ({ row := i + j + 2,
         tval := if pdIsna (getCell cols row "type") then "NA"
                 else strOfValue (getCell cols row "type") } : InvalidType) ∈
        invalidTypesFrom cols i rows := by
  induction rows with
  | nil => intro i j h; simp at h
  | cons r rs ih =>
    intro i j hrow hbad
    cases j with
    | zero =>
      obtain rfl : r = row := by simpa using hrow
      simp only [invalidTypesFrom, List.mem_append]
      exact Or.inl (by simp [hbad])
    | succ j2 =>
      simp only [invalidTypesFrom, List.mem_append]
      refine Or.inr ?_
      have := ih (i + 1) j2 (by simpa using hrow) hbad
      have harith : i + 1 + j2 + 2 = i + (j2 + 1) + 2 := by omega
      rwa [harith] at this

theorem exists_of_mem_invalidTypesFrom (cols : List String)
    (rows : List (List Value)) (rec : InvalidType) :
    ∀ i, rec ∈ invalidTypesFrom cols i rows →
      ∃ j row, rows.get? j = some row ∧
        (pdIsna (getCell cols row "type") ||
          !valueInStrList (getCell cols row "type") VALID_ENTRY_TYPES) = true ∧
        rec.row = i + j + 2 := by
  induction rows with
  | nil => intro i h; simp [invalidTypesFrom] at h
  | cons r rs ih =>
    intro i hmem
    simp only [invalidTypesFrom] at hmem
    rcases List.mem_append.mp hmem with h | h
    · by_cases hbad : (pdIsna (getCell cols r "type") ||
          !valueInStrList (getCell cols r "type") VALID_ENTRY_TYPES) = true
      · refine ⟨0, r, rfl, hbad, ?_⟩
        rw [if_pos hbad] at h
        simp only [List.mem_singleton] at h
        simp [h]
      · rw [if_neg hbad] at h
        simp at h
    · obtain ⟨j, row, hrow, hbad, hr⟩ := ih (i + 1) h
      exact ⟨j + 1, row, by simpa using hrow, hbad, by omega⟩

theorem mem_appInvalidFrom_of (cols : List String) (rows : List (List Value))
    (row : List Value) :
    ∀ i j, rows.get? j = some row →
      (pdIsna (getCell cols row "type") ||
        !valueInStrList (getCell cols row "type") VALID_ENTRY_TYPES) = true →
      ({ row := i + j + 1,
         issue := "Invalid entry type: " ++ strOfValue (getCell cols row "type") } :
          AppInvalidEntry) ∈ appInvalidEntriesFrom cols i rows := by
  induction rows with
  | nil => intro i j h; simp at h
  | cons r rs ih =>
    intro i j hrow hbad
    cases j with
    | zero =>
      obtain rfl : r = row := by simpa using hrow
      simp only [appInvalidEntriesFrom, List.mem_append]
      exact Or.inl (by simp [hbad])
    | succ j2 =>
      simp only [appInvalidEntriesFrom, List.mem_append]
      refine Or.inr ?_
      have := ih (i + 1) j2 (by simpa using hrow) hbad
      have harith : i + 1 + j2 + 1 = i + (j2 + 1) + 1 := by omega
      rwa [harith] at this

theorem missing_filter_isEmpty (df : DataFrame)
    (hcols : ∀ c ∈ required_columns, df.cols.contains c = true) :
    (required_columns.filter (fun c => !df.cols.contains c)).isEmpty = true := by
  rw [List.isEmpty_iff, List.filter_eq_nil_iff]
  intro a ha
  have h2 : a ∈ df.cols := by simpa using hcols a ha
  simp [h2]

theorem validate_ok_main (df : DataFrame) (v : Validation)
    (hmiss : (required_columns.filter (fun c => !df.cols.contains c)).isEmpty = true)
    (hok : validate_case_file_data df = .ok v) :
    v.missing_columns = [] ∧
    v.invalid_types = invalidTypesFrom df.cols 0 df.rows ∧
    v.date_format_errors = dateErrorsFrom df.cols 0 df.rows ∧
    catErrorsFrom df.cols 0 df.rows = .ok v.billing_category_errors ∧
    v.valid = ((invalidTypesFrom df.cols 0 df.rows).isEmpty &&
      v.billing_category_errors.isEmpty &&
      (dateErrorsFrom df.cols 0 df.rows).isEmpty) := by
  simp only [validate_case_file_data] at hok
  rw [hmiss] at hok
  simp only [if_true] at hok
  cases hcat : catErrorsFrom df.cols 0 df.rows with
  | error e =>
    rw [hcat] at hok
    cases hok
  | ok cats =>
    rw [hcat] at hok
    injection hok with h
    subst h
    exact ⟨rfl, rfl, rfl, rfl, rfl⟩

theorem validate_ok_missing (df : DataFrame)
    (hmiss : (required_columns.filter (fun c => !df.cols.contains c)).isEmpty = false) :
    validate_case_file_data df = .ok
      { valid := false,
        missing_columns := required_columns.filter (fun c => !df.cols.contains c),
        invalid_types := [], date_format_errors := [],
        billing_category_errors := [], sample_errors := .emptyInit } := by
  simp only [validate_case_file_data]
  rw [hmiss]
  simp

theorem bindE_ok_inv {α β : Type} {x : Except PyErr α}
    {f : α → Except PyErr β} {b : β}
    (h : x >>= f = .ok b) : ∃ a, x = .ok a ∧ f a = .ok b := by
  cases x with
  | error e =>
    rw [show ((Except.error e : Except PyErr α) >>= f) = .error e from rfl] at h
    cases h
  | ok a =>
    rw [show ((Except.ok a : Except PyErr α) >>= f) = f a from rfl] at h
    exact ⟨a, rfl, h⟩

theorem create_billing_entry_ok (cols : List String) (cid eid bid : Int)
    (row : List Value) (be : BillingEntry)
    (h : create_billing_entry cols cid eid bid row = .ok be) :
    be.entry_id = eid ∧ be.billing_id = bid := by
  unfold create_billing_entry at h
  obtain ⟨title, hti, h⟩ := bindE_ok_inv h
  cases title with
  | vStr s =>
    obtain ⟨bstart, h2, h⟩ := bindE_ok_inv h
    obtain ⟨bstop, h3, h⟩ := bindE_ok_inv h
    obtain ⟨bhrs, h4, h⟩ := bindE_ok_inv h
    obtain ⟨content, h5, h⟩ := bindE_ok_inv h
    obtain ⟨b1, hb1, h⟩ := bindE_ok_inv h
    obtain ⟨b2, hb2, h⟩ := bindE_ok_inv h
    obtain ⟨b3, hb3, h⟩ := bindE_ok_inv h
    obtain ⟨b4, hb4, h⟩ := bindE_ok_inv h
    injection h with h
    rw [← h]
    exact ⟨rfl, rfl⟩
  | vNum q => exact Except.noConfusion h
  | vTime t => exact Except.noConfusion h
  | vNone => exact Except.noConfusion h

theorem insertRows_ok (cols : List String) (cid : Int) :
    ∀ (rows : List (List Value)) (eid bid : Int)
      (p : List Entry × List BillingEntry),
      insertRows cols cid rows eid bid = .ok p →
      p.1.length = rows.length ∧
      p.1.map (fun en => en.entry_id) = seqIds eid rows.length ∧
      p.2.map (fun b => b.entry_id) = expectedBillingIds cols rows eid ∧
      p.2.length = (rows.filter (fun r => rowTypeIsBilling cols r)).length := by
  intro rows
  induction rows with
  | nil =>
    intro eid bid p h
    simp only [insertRows] at h
    injection h with h
    rw [← h]
    simp [seqIds, expectedBillingIds]
  | cons row rest ih =>
    intro eid bid p h
    simp only [insertRows] at h
    obtain ⟨tv, htv, h⟩ := bindE_ok_inv h
    by_cases hb : valueEqStr tv "billing-type" = true
    · rw [if_pos hb] at h
      obtain ⟨be, hbe, h⟩ := bindE_ok_inv h
      obtain ⟨p2, hrec, h⟩ := bindE_ok_inv h
      injection h with h
      obtain ⟨ih1, ih2, ih3, ih4⟩ := ih (eid + 1) (bid + 1) p2 hrec
      have hbeid := (create_billing_entry_ok cols cid eid bid row be hbe).1
      have hbill : rowTypeIsBilling cols row = true := by
        simp [rowTypeIsBilling, htv, hb]
      rw [← h]
      refine ⟨by simp [ih1], ?_, ?_, ?_⟩
      · simp [seqIds, ih2]
      · simp [expectedBillingIds, hbill, hbeid, ih3]
      · simp [List.filter_cons, hbill, ih4]
    · rw [if_neg hb] at h
      obtain ⟨p2, hrec, h⟩ := bindE_ok_inv h
      injection h with h
      obtain ⟨ih1, ih2, ih3, ih4⟩ := ih (eid + 1) bid p2 hrec
      have hbill : rowTypeIsBilling cols row = false := by
        simp only [Bool.not_eq_true] at hb
        simp [rowTypeIsBilling, htv, hb]
      rw [← h]
      refine ⟨by simp [ih1], ?_, ?_, ?_⟩
      · simp [seqIds, ih2]
      · simp [expectedBillingIds, hbill, ih3]
      · simp [List.filter_cons, hbill, ih4]

theorem excelBillingLoop_ok (cols : List String) (cid : Int) (fid : Int) :
    ∀ (pairs : List (Nat × List Value)) (bid : Int) (bes : List BillingEntry),
      excelBillingLoop cols cid fid pairs bid = .ok bes →
      bes.map (fun b => b.entry_id) = pairs.map (fun p => fid + (p.1 : Int)) ∧
      bes.length = pairs.length := by
  intro pairs
  induction pairs with
  | nil =>
    intro bid bes h
    simp only [excelBillingLoop] at h
    injection h with h
    rw [← h]
    exact ⟨rfl, rfl⟩
  | cons pr rest ih =>
    intro bid bes h
    obtain ⟨oi, row⟩ := pr
    simp only [excelBillingLoop] at h
    obtain ⟨title, hti, h⟩ := bindE_ok_inv h
    cases title with
    | vStr s =>
      obtain ⟨content, hco, h⟩ := bindE_ok_inv h
      obtain ⟨b1, hb1, h⟩ := bindE_ok_inv h
      obtain ⟨b2, hb2, h⟩ := bindE_ok_inv h
      obtain ⟨b3, hb3, h⟩ := bindE_ok_inv h
      obtain ⟨b4, hb4, h⟩ := bindE_ok_inv h
      obtain ⟨bes2, hrec, h⟩ := bindE_ok_inv h
      injection h with h
      obtain ⟨ih1, ih2⟩ := ih (bid + 1) bes2 hrec
      rw [← h]
      exact ⟨by simp [ih1], by simp [ih2]⟩
    | vNum q => exact Except.noConfusion h
    | vTime t => exact Except.noConfusion h
    | vNone => exact Except.noConfusion h

theorem exists_of_mem_appInvalidFrom (cols : List String)
    (rows : List (List Value)) (rec : AppInvalidEntry) :
    ∀ i, rec ∈ appInvalidEntriesFrom cols i rows →
      ∃ j row, rows.get? j = some row ∧
        (pdIsna (getCell cols row "type") ||
          !valueInStrList (getCell cols row "type") VALID_ENTRY_TYPES) = true ∧
        rec.row = i + j + 1 := by
  induction rows with
  | nil => intro i h; simp [appInvalidEntriesFrom] at h
  | cons r rs ih =>
    intro i hmem
    simp only [appInvalidEntriesFrom] at hmem
    rcases List.mem_append.mp hmem with h | h
    · by_cases hbad : (pdIsna (getCell cols r "type") ||
          !valueInStrList (getCell cols r "type") VALID_ENTRY_TYPES) = true
      · refine ⟨0, r, rfl, hbad, ?_⟩
        rw [if_pos hbad] at h
        simp only [List.mem_singleton] at h
        simp [h]
      · rw [if_neg hbad] at h
        simp at h
    · obtain ⟨j, row, hrow, hbad, hr⟩ := ih (i + 1) h
      exact ⟨j + 1, row, by simpa using hrow, hbad, by omega⟩

theorem validate_ok_validationOf (df : DataFrame)
    (hmiss : (required_columns.filter (fun c => !df.cols.contains c)).isEmpty = true)
    (hcat : ∃ cats, catErrorsFrom df.cols 0 df.rows = .ok cats) :
    validate_case_file_data df = .ok (validationOf df) := by
  obtain ⟨cats, hcat⟩ := hcat
  cases hv : validate_case_file_data df with
  | ok v => simp [validationOf, hv]
  | error e =>
    exfalso
    simp only [validate_case_file_data] at hv
    rw [hmiss] at hv
    simp only [if_true] at hv
    rw [hcat] at hv
    cases hv

/-! ## Claim theorems -/

/-- C6: the validator's boolean valid is true if and only if the
missing-columns list, the invalid-type list, the billing-category-error
list and the date/duration-error list of the returned report are all
empty; no report pairs valid with a recorded violation. -/
theorem valid_iff_no_violations (df : DataFrame) (v : Validation)
    (hok : validate_case_file_data df = .ok v) :
    v.valid = true ↔
      (v.missing_columns = [] ∧ v.invalid_types = [] ∧
       v.billing_category_errors = [] ∧ v.date_format_errors = []) := by
  by_cases hmiss :
      (required_columns.filter (fun c => !df.cols.contains c)).isEmpty = true
  · obtain ⟨h1, h2, h3, _h4, h5⟩ := validate_ok_main df v hmiss hok
    rw [h5, h1, h2, h3]
    simp only [Bool.and_eq_true, List.isEmpty_iff]
    tauto
  · have hf : (required_columns.filter (fun c => !df.cols.contains c)).isEmpty
        = false := by
      cases hE : (required_columns.filter (fun c => !df.cols.contains c)).isEmpty
      · rfl
      · exact absurd hE hmiss
    have hne : required_columns.filter (fun c => !df.cols.contains c) ≠ [] := by
      intro hnil
      rw [hnil] at hf
      cases hf
    have heq := validate_ok_missing df hf
    rw [heq] at hok
    injection hok with h
    rw [← h]
    simp only [hne]
    simp

/-- Witness for C6 at a concrete one-row valid table. -/
theorem valid_iff_no_violations_witness :
    (validationOf dfValidSmall).valid = true ↔
      ((validationOf dfValidSmall).missing_columns = [] ∧
       (validationOf dfValidSmall).invalid_types = [] ∧
       (validationOf dfValidSmall).billing_category_errors = [] ∧
       (validationOf dfValidSmall).date_format_errors = []) :=
  valid_iff_no_violations dfValidSmall (validationOf dfValidSmall) rfl

/-- C7: a table missing at least one required column gets valid false
with the missing names reported, and every later check is skipped, so
the invalid-type, billing-category and date-error lists stay empty;
the duplicate validator in app.py behaves the same way. -/
theorem missing_columns_short_circuit (df : DataFrame)
    (h : ∃ c ∈ required_columns, df.cols.contains c = false) :
    validate_case_file_data df = .ok (validationOf df) ∧
    (validationOf df).valid = false ∧
    (∀ c ∈ required_columns, df.cols.contains c = false →
      c ∈ (validationOf df).missing_columns) ∧
    (∀ c ∈ (validationOf df).missing_columns,
      c ∈ required_columns ∧ df.cols.contains c = false) ∧
    (validationOf df).invalid_types = [] ∧
    (validationOf df).billing_category_errors = [] ∧
    (validationOf df).date_format_errors = [] ∧
    (app_validate_case_file_data df).valid = false ∧
    (app_validate_case_file_data df).invalid_entries = [] := by
  obtain ⟨c0, hc0, hc0f⟩ := h
  have hne : required_columns.filter (fun c => !df.cols.contains c) ≠ [] := by
    intro hnil
    have hm : c0 ∈ required_columns.filter (fun c => !df.cols.contains c) :=
      List.mem_filter.mpr ⟨hc0, by simpa using hc0f⟩
    rw [hnil] at hm
    cases hm
  have hf : (required_columns.filter (fun c => !df.cols.contains c)).isEmpty
      = false := by
    cases hE : (required_columns.filter (fun c => !df.cols.contains c)).isEmpty
    · rfl
    · exact absurd (List.isEmpty_iff.mp hE) hne
  have heq := validate_ok_missing df hf
  have hvo : validationOf df =
      { valid := false,
        missing_columns := required_columns.filter (fun c => !df.cols.contains c),
        invalid_types := [], date_format_errors := [],
        billing_category_errors := [], sample_errors := .emptyInit } := by
    simp [validationOf, heq]
  have happ : app_validate_case_file_data df =
      { valid := false,
        missing_columns := required_columns.filter (fun c => !df.cols.contains c),
        invalid_entries := [] } := by
    simp only [app_validate_case_file_data]
    rw [hf]
    simp
  refine ⟨by rw [hvo]; exact heq, by rw [hvo], ?_, ?_, by rw [hvo],
    by rw [hvo], by rw [hvo], by rw [happ], by rw [happ]⟩
  · intro c hc hcf
    rw [hvo]
    exact List.mem_filter.mpr ⟨hc, by simpa using hcf⟩
  · intro c hcmem
    rw [hvo] at hcmem
    have := List.mem_filter.mp hcmem
    exact ⟨this.1, by simpa using this.2⟩

/-- Witness for C7 at a table having only two of the ten columns. -/
theorem missing_columns_short_circuit_witness :
    validate_case_file_data dfMissingCols = .ok (validationOf dfMissingCols) ∧
    (validationOf dfMissingCols).valid = false ∧
    "date" ∈ (validationOf dfMissingCols).missing_columns ∧
    (validationOf dfMissingCols).invalid_types = [] ∧
    (validationOf dfMissingCols).billing_category_errors = [] ∧
    (validationOf dfMissingCols).date_format_errors = [] := by
  have h := missing_columns_short_circuit dfMissingCols
    ⟨"date", by decide, by decide⟩
  exact ⟨h.1, h.2.1, h.2.2.1 "date" (by decide) (by decide), h.2.2.2.2.1,
    h.2.2.2.2.2.1, h.2.2.2.2.2.2.1⟩

/-- C8 counterexample: on a table whose row at index 0 carries the
unknown tag bogus, the app.py copy of the validator records the
violation with row number 1, not the header-offset row number 2 that
the claim states for the code it cites. -/
theorem app_validator_records_row_plus_one :
    app_validate_case_file_data dfBadType =
      { valid := false, missing_columns := [],
        invalid_entries := [{ row := 1, issue := "Invalid entry type: bogus" }] } ∧
    (1 : Nat) ≠ 0 + 2 := by
  exact ⟨rfl, by omega⟩

/-- C8 (amended): a row whose type cell is empty or outside the seven
tags is recorded and the table marked invalid by both validators, and a
row with a valid tag is never recorded; validation.py records the row
as index + 2 (header offset), while the duplicate validator in app.py
records it as index + 1. -/
theorem type_enum_violations_recorded (df : DataFrame) (v : Validation)
    (j : Nat) (row : List Value)
    (hok : validate_case_file_data df = .ok v)
    (hcols : ∀ c ∈ required_columns, df.cols.contains c = true)
    (hrow : df.rows.get? j = some row) :
    ((pdIsna (getCell df.cols row "type") ||
        !valueInStrList (getCell df.cols row "type") VALID_ENTRY_TYPES) = true →
      ({ row := j + 2,
         tval := if pdIsna (getCell df.cols row "type") then "NA"
                 else strOfValue (getCell df.cols row "type") } : InvalidType)
        ∈ v.invalid_types ∧
      v.valid = false ∧
      ({ row := j + 1,
         issue := "Invalid entry type: " ++
           strOfValue (getCell df.cols row "type") } : AppInvalidEntry)
        ∈ (app_validate_case_file_data df).invalid_entries ∧
      (app_validate_case_file_data df).valid = false) ∧
    (valueInStrList (getCell df.cols row "type") VALID_ENTRY_TYPES = true →
      (∀ rec ∈ v.invalid_types, rec.row ≠ j + 2) ∧
      (∀ rec ∈ (app_validate_case_file_data df).invalid_entries,
        rec.row ≠ j + 1)) := by
  have hmiss := missing_filter_isEmpty df hcols
  obtain ⟨_h1, h2, _h3, _h4, h5⟩ := validate_ok_main df v hmiss hok
  have happ : app_validate_case_file_data df =
      { valid := (appInvalidEntriesFrom df.cols 0 df.rows).isEmpty,
        missing_columns := [],
        invalid_entries := appInvalidEntriesFrom df.cols 0 df.rows } := by
    simp only [app_validate_case_file_data]
    rw [hmiss]
    simp
  constructor
  · intro hbad
    have hmem := mem_invalidTypesFrom_of df.cols df.rows row 0 j hrow hbad
    rw [Nat.zero_add] at hmem
    have hamem := mem_appInvalidFrom_of df.cols df.rows row 0 j hrow hbad
    rw [Nat.zero_add] at hamem
    refine ⟨by rw [h2]; exact hmem, ?_, by rw [happ]; exact hamem, ?_⟩
    · rw [h5, isEmpty_false_of_mem hmem]
      simp
    · rw [happ]
      exact isEmpty_false_of_mem hamem
  · intro hgood
    have hnotbad : (pdIsna (getCell df.cols row "type") ||
        !valueInStrList (getCell df.cols row "type") VALID_ENTRY_TYPES) = false := by
      rw [pdIsna_false_of_inList _ _ hgood, hgood]
      rfl
    constructor
    · intro rec hrec hreq
      rw [h2] at hrec
      obtain ⟨j2, row2, hrow2, hbad2, hr2⟩ :=
        exists_of_mem_invalidTypesFrom df.cols df.rows rec 0 hrec
      have hj : j2 = j := by omega
      subst hj
      rw [hrow] at hrow2
      injection hrow2 with hh
      subst hh
      rw [hnotbad] at hbad2
      cases hbad2
    · intro rec hrec hreq
      rw [happ] at hrec
      obtain ⟨j2, row2, hrow2, hbad2, hr2⟩ :=
        exists_of_mem_appInvalidFrom df.cols df.rows rec 0 hrec
      have hj : j2 = j := by omega
      subst hj
      rw [hrow] at hrow2
      injection hrow2 with hh
      subst hh
      rw [hnotbad] at hbad2
      cases hbad2

/-- Witness for the amended C8 at the concrete bogus-tag table. -/
theorem type_enum_violations_recorded_witness :
    ({ row := 2, tval := "bogus" } : InvalidType)
      ∈ (validationOf dfBadType).invalid_types ∧
    (validationOf dfBadType).valid = false ∧
    ({ row := 1, issue := "Invalid entry type: bogus" } : AppInvalidEntry)
      ∈ (app_validate_case_file_data dfBadType).invalid_entries ∧
    (app_validate_case_file_data dfBadType).valid = false := by
  have h := (type_enum_violations_recorded dfBadType (validationOf dfBadType) 0
    [Value.vStr "bogus", .vNone, .vNone, .vNone, .vNone, .vNone, .vNone,
     .vNone, .vNone, .vNone]
    rfl (by decide) rfl).1 (by decide)
  exact h

/-- C4 counterexample: on the colon-free title Travel the import
engines derive the whole title as the category, while the validator
derives no category at all and skips the check, accepting a billing
row whose stored category Travel is outside the vocabulary; the two
derivations are not the same function of the title. -/
theorem category_derivations_disagree_on_colon_free_title :
    validationDerivedCategory "Travel" = none ∧
    appDerivedCategory "Travel" = "Travel" ∧
    excelDerivedCategory "Travel" = "Travel" ∧
    validationDerivedCategory "Travel" ≠ some (appDerivedCategory "Travel") ∧
    BILLING_CATEGORIES.contains "Travel" = false ∧
    validate_case_file_data dfNoColonTitle = .ok (validationOf dfNoColonTitle) ∧
    (validationOf dfNoColonTitle).valid = true := by
  refine ⟨rfl, rfl, rfl, ?_, rfl, rfl, rfl⟩
  intro h
  cases h

/-- C4 (amended): the two import-engine derivations agree on every
title, and the validator's derivation agrees with them exactly on the
titles containing a colon; on a colon-free title the import engines
return the whole title while the validator derives no category. -/
theorem category_derivations_agree_on_colon_titles :
    (∀ s, appDerivedCategory s = excelDerivedCategory s) ∧
    (∀ s, hasColon s.data = true →
      validationDerivedCategory s = some (appDerivedCategory s)) ∧
    (∀ s, hasColon s.data = false →
      validationDerivedCategory s = none ∧ appDerivedCategory s = s ∧
      excelDerivedCategory s = s) := by
  refine ⟨fun s => rfl, fun s h => ?_, fun s h => ?_⟩
  · simp [validationDerivedCategory, appDerivedCategory, h]
  · simp [validationDerivedCategory, appDerivedCategory, excelDerivedCategory, h]

/-- Witness for the amended C4 at concrete titles. -/
theorem category_derivations_agree_witness :
    appDerivedCategory "Work: Hearing" = excelDerivedCategory "Work: Hearing" ∧
    validationDerivedCategory "Work: Hearing" =
      some (appDerivedCategory "Work: Hearing") ∧
    validationDerivedCategory "Trial Preparation" = none := by
  have h := category_derivations_agree_on_colon_titles
  exact ⟨h.1 "Work: Hearing", h.2.1 "Work: Hearing" rfl,
    (h.2.2 "Trial Preparation" rfl).1⟩

/-- C9: a path whose lowercased extension is not one of xlsx, xls,
xlsm, csv fails with the unsupported-file-type error, with the store
returned untouched and the result independent of any file contents, so
the rejection happens before any database connection and before any
read; spreadsheet extensions route to the spreadsheet reader and csv
to the tab-delimited reader. -/
theorem unsupported_extension_rejected_early (p1 p2 p3 : String)
    (h1 : splitextExt (strLower p1) ∉ [".xlsx", ".xls", ".xlsm", ".csv"])
    (h2 : splitextExt (strLower p2) ∈ [".xlsx", ".xls", ".xlsm"])
    (h3 : splitextExt (strLower p3) = ".csv") :
    (∀ db0 ec cc cid, app_load_excel_to_db db0 p1 ec cc cid =
      (db0, { success := false,
              message := "Unsupported file type: " ++ splitextExt (strLower p1),
              entries_added := 0, errors := .noErrors })) ∧
    identify_file_type p1 = .unknown ∧
    (∃ e, load_data_to_dataframe_route p1 = .error e) ∧
    identify_file_type p2 = .excel ∧
    load_data_to_dataframe_route p2 = .ok .excelReader ∧
    (∀ db0 ec cc cid, app_load_excel_to_db db0 p2 ec cc cid =
      app_load_excel_to_db_df db0 ec cid) ∧
    identify_file_type p3 = .csv ∧
    load_data_to_dataframe_route p3 = .ok .csvTabReader ∧
    (∀ db0 ec cc cid, app_load_excel_to_db db0 p3 ec cc cid =
      app_load_excel_to_db_df db0 cc cid) := by
  have h1a : ([".xlsx", ".xls", ".xlsm"].contains (splitextExt (strLower p1)))
      = false := by
    cases hc : [".xlsx", ".xls", ".xlsm"].contains (splitextExt (strLower p1))
    · rfl
    · refine absurd (List.mem_of_elem_eq_true hc) (fun hmem => h1 ?_)
      simp only [List.mem_cons] at hmem ⊢
      tauto
  have h1b : splitextExt (strLower p1) ≠ ".csv" := by
    intro hcsv
    apply h1
    simp [hcsv]
  have h2a : ([".xlsx", ".xls", ".xlsm"].contains (splitextExt (strLower p2)))
      = true := List.elem_eq_true_of_mem h2
  have h3a : ([".xlsx", ".xls", ".xlsm"].contains (splitextExt (strLower p3)))
      = false := by
    rw [h3]
    rfl
  have hu1 : identify_file_type p1 = .unknown := by
    simp only [identify_file_type]
    rw [h1a]
    simp [h1b]
  have hu2 : identify_file_type p2 = .excel := by
    simp only [identify_file_type]
    rw [h2a]
    simp
  have hu3 : identify_file_type p3 = .csv := by
    simp only [identify_file_type]
    rw [h3a, h3]
    simp
  refine ⟨?_, hu1, ?_, hu2, ?_, ?_, hu3, ?_, ?_⟩
  · intro db0 ec cc cid
    simp only [app_load_excel_to_db]
    rw [h1a]
    simp [h1b]
  · refine ⟨⟨"Unsupported file type: " ++ p1⟩, ?_⟩
    simp only [load_data_to_dataframe_route]
    rw [hu1]
  · simp only [load_data_to_dataframe_route]
    rw [hu2]
  · intro db0 ec cc cid
    simp only [app_load_excel_to_db]
    rw [h2a]
    simp
  · simp only [load_data_to_dataframe_route]
    rw [hu3]
  · intro db0 ec cc cid
    simp only [app_load_excel_to_db]
    rw [h3a, h3]
    simp

/-- Witness for C9 at three concrete paths, one of them uppercased. -/
theorem unsupported_extension_rejected_early_witness :
    app_load_excel_to_db emptyDB "evidence.txt" dfValidSmall dfValidSmall 4 =
      (emptyDB, { success := false,
                  message := "Unsupported file type: " ++
                    splitextExt (strLower "evidence.txt"),
                  entries_added := 0, errors := .noErrors }) ∧
    identify_file_type "evidence.txt" = .unknown ∧
    identify_file_type "Data.XLSX" = .excel ∧
    identify_file_type "rows.csv" = .csv := by
  have h := unsupported_extension_rejected_early "evidence.txt" "Data.XLSX"
    "rows.csv" (by decide) (by decide) (by decide)
  exact ⟨h.1 emptyDB dfValidSmall dfValidSmall 4, h.2.1, h.2.2.2.1,
    h.2.2.2.2.2.2.1⟩

/-- C10: the one-row table whose billing row has an empty title cell
passes validation, yet both import engines raise the TypeError of the
colon membership test on the non-string title and report the import as
failed: the app.py engine rolls the whole batch back, returning the
store unchanged with the propagated message, and the excel_loader
engine aborts with success false, its pending billing inserts rolled
back (its entry rows, committed by the bulk insert before the billing
loop, remain). -/
theorem valid_table_with_nan_title_aborts_import :
    validate_case_file_data dfNanTitle = .ok (validationOf dfNanTitle) ∧
    (validationOf dfNanTitle).valid = true ∧
    insert_data_to_db emptyDB (prepare_data_for_db dfNanTitle 7) 7 =
      (emptyDB, .error ⟨"TypeError: argument of type is not iterable"⟩) ∧
    app_load_excel_to_db_df emptyDB dfNanTitle 7 =
      (emptyDB,
       { success := false,
         message := "Error importing data: TypeError: argument of type is not iterable",
         entries_added := 0,
         errors := .messages ["TypeError: argument of type is not iterable"] }) ∧
    (load_case_file_to_db emptyDB dfNanTitle 7).2.success = false ∧
    (load_case_file_to_db emptyDB dfNanTitle 7).2.errors =
      ["TypeError: argument of type is not iterable"] ∧
    (load_case_file_to_db emptyDB dfNanTitle 7).1.billing = [] := by
  exact ⟨rfl, rfl, rfl, rfl, rfl, rfl, rfl⟩

/-- C2 counterexample: a billing row with start 100 at or after stop 50
and both billing timestamps present is accepted as fully valid because
its date cell is empty and the date loop skips the whole row; no
billing_sequence error is recorded, contradicting the claim that the
check fires regardless of the date cell. -/
theorem billing_sequence_skipped_when_date_absent :
    valueEqStr (getCell dfSeqSkip.cols seqSkipRow "type") "billing-type" = true ∧
    pdIsna (getCell dfSeqSkip.cols seqSkipRow "billing-start") = false ∧
    pdIsna (getCell dfSeqSkip.cols seqSkipRow "billing-stop") = false ∧
    coerceTime (getCell dfSeqSkip.cols seqSkipRow "billing-start") = .ok 100 ∧
    coerceTime (getCell dfSeqSkip.cols seqSkipRow "billing-stop") = .ok 50 ∧
    (100 : Int) ≥ 50 ∧
    pdIsna (getCell dfSeqSkip.cols seqSkipRow "date") = true ∧
    validate_case_file_data dfSeqSkip = .ok
      { valid := true, missing_columns := [], invalid_types := [],
        date_format_errors := [], billing_category_errors := [],
        sample_errors := .assembled [] [] [] } := by
  exact ⟨rfl, rfl, rfl, rfl, rfl, by norm_num, rfl, rfl⟩

/-- C2 (amended): for a billing row whose date cell is present and
passes the format step and whose billing timestamps are present and
coerce, start at or after stop always puts a billing_sequence record in
the report and makes the table invalid; a billing row with an empty
date cell skips the sequence check entirely. -/
theorem billing_sequence_flagged_when_date_present (df : DataFrame)
    (v : Validation) (j : Nat) (row : List Value) (s t : Int)
    (hok : validate_case_file_data df = .ok v)
    (hcols : ∀ c ∈ required_columns, df.cols.contains c = true)
    (hrow : df.rows.get? j = some row)
    (hdate : pdIsna (getCell df.cols row "date") = false)
    (hfmt : dateFmtOk (getCell df.cols row "date") = true)
    (htype : valueEqStr (getCell df.cols row "type") "billing-type" = true)
    (hbs : pdIsna (getCell df.cols row "billing-start") = false)
    (hbt : pdIsna (getCell df.cols row "billing-stop") = false)
    (hcs : coerceTime (getCell df.cols row "billing-start") = .ok s)
    (hct : coerceTime (getCell df.cols row "billing-stop") = .ok t)
    (hge : s ≥ t) :
    ({ row := j + 2,
       kind := .seq (strOfValue (getCell df.cols row "billing-start"))
         (strOfValue (getCell df.cols row "billing-stop")) } : DateErr)
      ∈ v.date_format_errors ∧
    v.valid = false := by
  have hmiss := missing_filter_isEmpty df hcols
  obtain ⟨_h1, _h2, h3, _h4, h5⟩ := validate_ok_main df v hmiss hok
  have hkind : DateErrKind.seq (strOfValue (getCell df.cols row "billing-start"))
      (strOfValue (getCell df.cols row "billing-stop"))
      ∈ rowDateChecks df.cols row := by
    simp only [rowDateChecks, hdate, hfmt, htype, hbs, hbt, hcs, hct,
      Bool.not_true, Bool.not_false, Bool.and_self, Bool.false_eq_true,
      if_false, if_true]
    rw [if_pos hge]
    split
    · simp
    · split <;> simp
  have hpm : ({ row := j + 2,
                kind := .seq (strOfValue (getCell df.cols row "billing-start"))
                  (strOfValue (getCell df.cols row "billing-stop")) } : DateErr)
      ∈ processRowDates df.cols (0 + j) row := by
    rw [Nat.zero_add]
    exact (mem_processRowDates_iff df.cols j row _).mpr ⟨rfl, hkind⟩
  have hmem := mem_dateErrorsFrom_of df.cols df.rows row _ 0 j hrow hpm
  refine ⟨by rw [h3]; exact hmem, ?_⟩
  rw [h5, isEmpty_false_of_mem hmem]
  simp

/-- Witness for the amended C2 at the concrete table whose billing row
has a present date and start 6000 after stop 3000. -/
theorem billing_sequence_flagged_witness :
    ({ row := 2, kind := .seq (strOfValue (Value.vTime 6000))
        (strOfValue (Value.vTime 3000)) } : DateErr)
      ∈ (validationOf dfSeqFlag).date_format_errors ∧
    (validationOf dfSeqFlag).valid = false := by
  exact billing_sequence_flagged_when_date_present dfSeqFlag
    (validationOf dfSeqFlag) 0 seqFlagRow 6000 3000 rfl (by decide) rfl rfl
    rfl rfl rfl rfl rfl rfl (by norm_num)

theorem rowDateChecks_closed (cols : List String) (row : List Value)
    (s t : Int) (h : Rat)
    (hdate : pdIsna (getCell cols row "date") = false)
    (hfmt : dateFmtOk (getCell cols row "date") = true)
    (htype : valueEqStr (getCell cols row "type") "billing-type" = true)
    (hbs : pdIsna (getCell cols row "billing-start") = false)
    (hbt : pdIsna (getCell cols row "billing-stop") = false)
    (hcs : coerceTime (getCell cols row "billing-start") = .ok s)
    (hct : coerceTime (getCell cols row "billing-stop") = .ok t)
    (hbh : pdIsna (getCell cols row "billing-hrs") = false)
    (hfl : pyFloat (getCell cols row "billing-hrs") = .ok h) :
    rowDateChecks cols row =
      (if s ≥ t then
        [DateErrKind.seq (strOfValue (getCell cols row "billing-start"))
          (strOfValue (getCell cols row "billing-stop"))] else []) ++
      (if |((t - s : Int) : Rat) / 3600 - h| > 1 / 100 then
        [DateErrKind.dur (((t - s : Int) : Rat) / 3600)
          (getCell cols row "billing-hrs")] else []) := by
  simp only [rowDateChecks, hdate, hfmt, htype, hbs, hbt, hcs, hct, hbh, hfl,
    Bool.not_true, Bool.not_false, Bool.and_self, Bool.false_eq_true,
    if_false, if_true]

/-- C3 counterexample: a billing row with a one-hour span but hours
0.5, both timestamps and the hours present, is accepted as fully valid
because its empty date cell makes the date loop skip the row; no
billing_duration error is recorded even though the mismatch exceeds
the 0.01 tolerance, and the row passes validation. -/
theorem billing_duration_skipped_when_date_absent :
    valueEqStr (getCell dfDurSkip.cols durSkipRow "type") "billing-type" = true ∧
    pdIsna (getCell dfDurSkip.cols durSkipRow "billing-start") = false ∧
    pdIsna (getCell dfDurSkip.cols durSkipRow "billing-stop") = false ∧
    pdIsna (getCell dfDurSkip.cols durSkipRow "billing-hrs") = false ∧
    coerceTime (getCell dfDurSkip.cols durSkipRow "billing-start") = .ok 0 ∧
    coerceTime (getCell dfDurSkip.cols durSkipRow "billing-stop") = .ok 3600 ∧
    pyFloat (getCell dfDurSkip.cols durSkipRow "billing-hrs") = .ok (1 / 2) ∧
    |((3600 - 0 : Int) : Rat) / 3600 - 1 / 2| > 1 / 100 ∧
    pdIsna (getCell dfDurSkip.cols durSkipRow "date") = true ∧
    validate_case_file_data dfDurSkip = .ok
      { valid := true, missing_columns := [], invalid_types := [],
        date_format_errors := [], billing_category_errors := [],
        sample_errors := .assembled [] [] [] } := by
  refine ⟨rfl, rfl, rfl, rfl, rfl, rfl, rfl, ?_, rfl, rfl⟩
  have he : ((3600 - 0 : Int) : Rat) / 3600 - 1 / 2 = 1 / 2 := by norm_num
  rw [gt_iff_lt, he, abs_of_pos (by norm_num : (0 : Rat) < 1 / 2)]
  norm_num

/-- C3 (amended): for a billing row whose date cell is present and
passes the format step and whose billing start, stop and hours are all
present and coerce, the billing_duration record for that row is in the
report exactly when the absolute difference between the span in hours
and the provided hours exceeds 0.01, and a table that stays valid
satisfies the 0.01 bound on such a row; a billing row with an empty
date cell is never checked. -/
theorem billing_duration_flagged_iff_mismatch_when_date_present
    (df : DataFrame) (v : Validation) (j : Nat) (row : List Value)
    (s t : Int) (h : Rat)
    (hok : validate_case_file_data df = .ok v)
    (hcols : ∀ c ∈ required_columns, df.cols.contains c = true)
    (hrow : df.rows.get? j = some row)
    (hdate : pdIsna (getCell df.cols row "date") = false)
    (hfmt : dateFmtOk (getCell df.cols row "date") = true)
    (htype : valueEqStr (getCell df.cols row "type") "billing-type" = true)
    (hbs : pdIsna (getCell df.cols row "billing-start") = false)
    (hbt : pdIsna (getCell df.cols row "billing-stop") = false)
    (hcs : coerceTime (getCell df.cols row "billing-start") = .ok s)
    (hct : coerceTime (getCell df.cols row "billing-stop") = .ok t)
    (hbh : pdIsna (getCell df.cols row "billing-hrs") = false)
    (hfl : pyFloat (getCell df.cols row "billing-hrs") = .ok h) :
    (({ row := j + 2,
        kind := .dur (((t - s : Int) : Rat) / 3600)
          (getCell df.cols row "billing-hrs") } : DateErr)
        ∈ v.date_format_errors ↔
      |((t - s : Int) : Rat) / 3600 - h| > 1 / 100) ∧
    (v.valid = true → |((t - s : Int) : Rat) / 3600 - h| ≤ 1 / 100) := by
  have hmiss := missing_filter_isEmpty df hcols
  obtain ⟨_h1, _h2, h3, _h4, h5⟩ := validate_ok_main df v hmiss hok
  have hclosed := rowDateChecks_closed df.cols row s t h hdate hfmt htype
    hbs hbt hcs hct hbh hfl
  have hiff : (({ row := j + 2,
                  kind := .dur (((t - s : Int) : Rat) / 3600)
                    (getCell df.cols row "billing-hrs") } : DateErr)
      ∈ v.date_format_errors ↔
      |((t - s : Int) : Rat) / 3600 - h| > 1 / 100) := by
    constructor
    · intro hmem
      rw [h3] at hmem
      obtain ⟨j2, row2, hrow2, hpm⟩ :=
        exists_of_mem_dateErrorsFrom df.cols df.rows _ 0 hmem
      obtain ⟨hr2, hk2⟩ := (mem_processRowDates_iff df.cols (0 + j2) row2 _).mp hpm
      simp only at hr2
      have hj : j2 = j := by omega
      subst hj
      rw [hrow] at hrow2
      injection hrow2 with hh
      subst hh
      rw [hclosed] at hk2
      rcases List.mem_append.mp hk2 with hin | hin
      · by_cases hcond : s ≥ t
        · rw [if_pos hcond] at hin
          simp only [List.mem_singleton] at hin
          cases hin
        · rw [if_neg hcond] at hin
          cases hin
      · by_cases hcond : |((t - s : Int) : Rat) / 3600 - h| > 1 / 100
        · exact hcond
        · rw [if_neg hcond] at hin
          cases hin
    · intro hcond
      have hkind : DateErrKind.dur (((t - s : Int) : Rat) / 3600)
          (getCell df.cols row "billing-hrs") ∈ rowDateChecks df.cols row := by
        rw [hclosed]
        refine List.mem_append.mpr (Or.inr ?_)
        rw [if_pos hcond]
        exact List.mem_singleton.mpr rfl
      have hpm : ({ row := j + 2,
                    kind := .dur (((t - s : Int) : Rat) / 3600)
                      (getCell df.cols row "billing-hrs") } : DateErr)
          ∈ processRowDates df.cols (0 + j) row := by
        rw [Nat.zero_add]
        exact (mem_processRowDates_iff df.cols j row _).mpr ⟨rfl, hkind⟩
      rw [h3]
      exact mem_dateErrorsFrom_of df.cols df.rows row _ 0 j hrow hpm
  refine ⟨hiff, ?_⟩
  intro hvalid
  by_contra hgt
  rw [not_le] at hgt
  have hmem := hiff.mpr hgt
  rw [h3] at hmem
  rw [h5, isEmpty_false_of_mem hmem] at hvalid
  simp at hvalid

/-- Witness for the amended C3 at the concrete table whose billing row
has a present date, a one-hour span and hours 0.5. -/
theorem billing_duration_flagged_witness :
    ({ row := 2, kind := .dur (((3600 - 0 : Int) : Rat) / 3600)
        (Value.vNum (1 / 2)) } : DateErr)
      ∈ (validationOf dfDurFlag).date_format_errors := by
  have hok := validate_ok_validationOf dfDurFlag (by decide) ⟨[], rfl⟩
  have h := billing_duration_flagged_iff_mismatch_when_date_present dfDurFlag
    (validationOf dfDurFlag) 0 durFlagRow 0 3600 (1 / 2) hok (by decide) rfl
    rfl rfl rfl rfl rfl rfl rfl rfl rfl
  refine h.1.mpr ?_
  have he : ((3600 - 0 : Int) : Rat) / 3600 - 1 / 2 = 1 / 2 := by norm_num
  rw [gt_iff_lt, he, abs_of_pos (by norm_num : (0 : Rat) < 1 / 2)]
  norm_num

/-- C5: a successful import creates one entry per input row with
consecutive generated rowids, reports entries_added as the row count
and billing_entries_added as the billing-type row count, and creates
exactly one billing row per billing-type input row, linked through
entry_id to the rowid generated for that row (and none for any other
row); the insert loop of app.py satisfies the same correspondence. -/
theorem successful_import_links_billing_entries :
    (∀ (db0 : DB) (df : DataFrame) (cid : Int) (db1 : DB) (res : LoadResults),
      load_case_file_to_db db0 df cid = (db1, res) → res.success = true →
      res.entries_added = df.rows.length ∧
      res.billing_entries_added =
        (df.rows.filter (fun r =>
          valueEqStr (getCell df.cols r "type") "billing-type")).length ∧
      db1.entries.length = db0.entries.length + df.rows.length ∧
      (db1.entries.drop db0.entries.length).map (fun en => en.entry_id) =
        seqIds db0.next_id df.rows.length ∧
      db1.billing.length = db0.billing.length + res.billing_entries_added ∧
      (db1.billing.drop db0.billing.length).map (fun b => b.entry_id) =
        ((enumFrom 0 df.rows).filter (fun p =>
          valueEqStr (getCell df.cols p.2 "type") "billing-type")).map
          (fun p => db0.next_id + (p.1 : Int))) ∧
    (∀ (cols : List String) (cid : Int) (rows : List (List Value))
      (eid bid : Int) (p : List Entry × List BillingEntry),
      insertRows cols cid rows eid bid = .ok p →
      p.1.length = rows.length ∧
      p.1.map (fun en => en.entry_id) = seqIds eid rows.length ∧
      p.2.map (fun b => b.entry_id) = expectedBillingIds cols rows eid ∧
      p.2.length = (rows.filter (fun r => rowTypeIsBilling cols r)).length) := by
  constructor
  · intro db0 df cid db1 res hpair hsucc
    simp only [load_case_file_to_db] at hpair
    have hn : ((prepare_data_for_import df cid).rows.map (fun r =>
        ((prepare_data_for_import df cid).cols.filter
          (fun c => case_file_entries_columns.contains c)).map
          (getCell (prepare_data_for_import df cid).cols r))).length
        = df.rows.length := by
      simp [prepare_data_for_import]
    split at hpair
    case h_1 bes heq =>
      injection hpair with hdb hres
      obtain ⟨hmap, hlen⟩ := excelBillingLoop_ok df.cols cid _ _
        db0.next_billing_id bes heq
      have hfid : db0.next_id +
          (((prepare_data_for_import df cid).rows.map (fun r =>
            ((prepare_data_for_import df cid).cols.filter
              (fun c => case_file_entries_columns.contains c)).map
              (getCell (prepare_data_for_import df cid).cols r))).length : Int)
          - 1 -
          (((prepare_data_for_import df cid).rows.map (fun r =>
            ((prepare_data_for_import df cid).cols.filter
              (fun c => case_file_entries_columns.contains c)).map
              (getCell (prepare_data_for_import df cid).cols r))).length : Int)
          + 1 = db0.next_id := by ring
      rw [hfid] at hmap
      have hplen : ((enumFrom 0 df.rows).filter (fun p =>
          valueEqStr (getCell df.cols p.2 "type") "billing-type")).length =
          (df.rows.filter (fun r =>
            valueEqStr (getCell df.cols r "type") "billing-type")).length :=
        enumFrom_filter_snd_length
          (fun r => valueEqStr (getCell df.cols r "type") "billing-type")
          df.rows 0
      refine ⟨?_, ?_, ?_, ?_, ?_, ?_⟩
      · rw [← hres]
        exact hn
      · rw [← hres]
        simp only
        rw [hlen, hplen]
      · rw [← hdb]
        simp only [List.length_append, List.length_map, enumFrom_length]
        simp [prepare_data_for_import]
      · rw [← hdb]
        simp only [List.drop_left, List.map_map]
        have hcomp : ((fun en => en.entry_id) ∘ fun (p : Nat × List Value) =>
            ({ entry_id := db0.next_id + (p.1 : Int),
               cells := ((prepare_data_for_import df cid).cols.filter
                 (fun c => case_file_entries_columns.contains c)).zip p.2 } :
              Entry)) = fun (p : Nat × List Value) =>
                db0.next_id + (p.1 : Int) := rfl
        rw [hcomp, enumFrom_map_add]
        simp only [Nat.cast_zero, add_zero]
        rw [hn]
      · rw [← hdb, ← hres]
        simp only [List.length_append]
      · rw [← hdb]
        simp only [List.drop_left]
        exact hmap
    case h_2 e heq =>
      injection hpair with hdb hres
      rw [← hres] at hsucc
      cases hsucc
  · intro cols cid rows eid bid p h
    exact insertRows_ok cols cid rows eid bid p h

/-- Witness for C5: the two-row table with one billing row imports
successfully with rowids 1 and 2 and one billing row linked to 1, and
the insert loop of app.py reproduces the same linkage on concrete
rows. -/
theorem successful_import_links_billing_entries_witness :
    (load_case_file_to_db emptyDB dfBillingOk 3).2.entries_added = 2 ∧
    (load_case_file_to_db emptyDB dfBillingOk 3).2.billing_entries_added = 1 ∧
    ((load_case_file_to_db emptyDB dfBillingOk 3).1.billing.drop 0).map
      (fun b => b.entry_id) = [(1 : Int)] ∧
    ((load_case_file_to_db emptyDB dfBillingOk 3).1.entries.drop 0).map
      (fun en => en.entry_id) = [(1 : Int), 2] ∧
    insResW.1.map (fun en => en.entry_id) = [(1 : Int), 2] ∧
    insResW.2.map (fun b => b.entry_id) = [(1 : Int)] := by
  have h := successful_import_links_billing_entries
  have h1 := h.1 emptyDB dfBillingOk 3
    (load_case_file_to_db emptyDB dfBillingOk 3).1
    (load_case_file_to_db emptyDB dfBillingOk 3).2 rfl rfl
  have h2 := h.2 colsW 7 rowsW 1 1 insResW rfl
  exact ⟨h1.1, h1.2.1, h1.2.2.2.2.2, h1.2.2.2.1, h2.2.1, h2.2.2.1⟩
